import Mathlib

/-!
# Verification of the trdr trading core against its specification

Shallow embedding of the parts of the `trdr` repository that the checked
claims are about:

* the PDT (pattern-day-trading) policy layer
  (`src/trdr/core/broker/pdt/nun_strategy.py`, `.../pdt/models.py`),
* the broker core with its staleness discipline
  (`src/trdr/core/broker/base_broker.py`),
* positions and orders (`src/trdr/core/broker/models.py`),
* the `Security` indicator computations
  (`src/trdr/core/security_provider/models.py`,
   `src/trdr/core/shared/models.py`),
* the strategy-DSL AST with its evaluator (`src/trdr/dsl/dsl_ast.py`),
* the recursive-descent parser (`src/trdr/dsl/parser.py`), and
* the indentation-sensitive lexer (module `trdr.dsl.lexer`, which is
  imported by `parser.py` and `dsl_loader.py` but whose source file is not
  in the tree; it is modelled from the specification, §4.D).

Python `Decimal` values are modelled as `Rat` (the spec mandates
arbitrary-precision decimal arithmetic; all values appearing in the claims
are finite decimals, which `Rat` represents exactly).  Python functions
that can raise are modelled with `Except`.
-/

namespace Trdr

/-- Python `Decimal` stand-in. -/
abbrev Dec := Rat

/-- `Money` value object (`src/trdr/core/shared/models.py`): an amount plus
a currency code (defaulting to `"USD"`). -/
structure Money where
  amount : Dec
  currency : String := "USD"
  deriving Repr, DecidableEq

/-! ## PDT policy layer (`src/trdr/core/broker/pdt`) -/

/-- `OrderSide` enum (`src/trdr/core/broker/models.py`). -/
inductive OrderSide where
  | BUY
  | SELL
  deriving Repr, DecidableEq

/-- `PDTContext` (`src/trdr/core/broker/pdt/models.py`): the information a
PDT strategy sees when evaluating a proposed order.  Integer fields are
Python `int`, hence `Int`. -/
structure PDTContext where
  symbol : String
  side : OrderSide
  amount : Option Money := none
  positions_opened_today : Int := 0
  rolling_day_trade_count : Int := 0
  position_opened_today : Bool := false
  equity : Option Money := none
  deriving Repr, DecidableEq

/-- `PDTDecision` (`src/trdr/core/broker/pdt/models.py`). -/
structure PDTDecision where
  allowed : Bool := false
  reason : Option String := none
  deriving Repr, DecidableEq

namespace NunStrategy

/-- `NunStrategy.evaluate_order`
(`src/trdr/core/broker/pdt/nun_strategy.py`, lines 24-58).  The Python
`OrderSide` enum has exactly the members `BUY` and `SELL`, so the
trailing "Unknown order type" fallback of the source is unreachable and
the translation is a two-way match. -/
def evaluate_order (context : PDTContext) : PDTDecision :=
  match context.side with
  | .BUY =>
    let available_day_trades : Int := 3 - context.rolling_day_trade_count
    if context.positions_opened_today < available_day_trades then
      { allowed := true, reason := some "Order allowed: sufficient day trades available" }
    else
      { allowed := false,
        reason := some "PDT restrictions prevent opening a new position: insufficient day trades available" }
  | .SELL =>
    if !context.position_opened_today then
      { allowed := true, reason := some "Order allowed: not a day trade" }
    else if context.rolling_day_trade_count < 3 then
      { allowed := true, reason := some "Order allowed: day trade available for position opened today" }
    else
      { allowed := false,
        reason := some "PDT restrictions prevent closing this position: no day trades available" }

end NunStrategy

/-! ## Orders and positions (`src/trdr/core/broker/models.py`)  -/

/-- `TradingDateTime` (`src/trdr/core/shared/models.py`), reduced to the
single piece of data the verified code paths consume: the `timestamp`
attribute, in seconds (the broker compares timestamps against
`timedelta(minutes=10)`). -/
structure TradingDateTime where
  timestamp : Int
  deriving Repr, DecidableEq

/-- `OrderType` enum (`src/trdr/core/broker/models.py`). -/
inductive OrderType where
  | MARKET
  deriving Repr, DecidableEq

/-- `OrderStatus` enum (`src/trdr/core/broker/models.py`). -/
inductive OrderStatus where
  | PENDING
  | FILLED
  | PARTIAL_FILL
  | CANCELLED
  | REJECTED
  deriving Repr, DecidableEq

/-- `Order` (`src/trdr/core/broker/models.py`).  Field-for-field
translation of the pydantic model (the `model_validator` is a
construction-time check, not a field). -/
structure Order where
  symbol : String
  dollar_amount_requested : Option Money := none
  quantity_requested : Option Dec := none
  quantity_filled : Dec
  side : OrderSide
  type : OrderType := .MARKET
  status : OrderStatus
  avg_fill_price : Option Money := none
  created_at : TradingDateTime
  filled_at : Option TradingDateTime := none
  deriving Repr, DecidableEq

/-- `Order.net_quantity` (`src/trdr/core/broker/models.py`, lines 38-40):
`+quantity_filled` for a BUY, `-quantity_filled` for a SELL. -/
def Order.net_quantity (o : Order) : Dec :=
  if o.side = .BUY then o.quantity_filled else -o.quantity_filled

/-- Failure modes of the `Position` accessors: `average_cost` divides by
`size` (Python `decimal` raises `DivisionByZero`), and dereferences
`order.avg_fill_price.amount` (an `AttributeError` when the fill price is
`None`). -/
inductive PyErr where
  | divisionByZero
  | attributeError
  deriving Repr, DecidableEq

/-- `Position` (`src/trdr/core/broker/models.py`). -/
structure Position where
  symbol : String
  orders : List Order
  deriving Repr, DecidableEq

/-- `Position.size` (`src/trdr/core/broker/models.py`, lines 120-124):
`Decimal(0)` for an order-less position, else the sum of `net_quantity`
over the orders. -/
def Position.size (p : Position) : Dec :=
  if p.orders.length = 0 then 0
  else (p.orders.map Order.net_quantity).sum

/-- The generator sum
`sum(order.net_quantity * order.avg_fill_price.amount for order in orders)`
inside `Position.average_cost`: a left-to-right running sum that raises
`AttributeError` at the first order without a fill price. -/
def Position.costSum (acc : Dec) : List Order → Except PyErr Dec
  | [] => .ok acc
  | o :: os =>
    match o.avg_fill_price with
    | none => .error .attributeError
    | some m => Position.costSum (acc + o.net_quantity * m.amount) os

/-- `Position.average_cost` (`src/trdr/core/broker/models.py`, lines
126-130): `Money(0)` for an order-less position, else
`Σ (net_quantity · avg_fill_price.amount) / size`.  As in the source, the
summands (with their `avg_fill_price` dereferences) are computed before
the division by `self.size` happens. -/
def Position.average_cost (p : Position) : Except PyErr Money :=
  if p.orders.length = 0 then .ok { amount := 0 }
  else
    match Position.costSum 0 p.orders with
    | .error e => .error e
    | .ok s =>
      if p.size = 0 then .error .divisionByZero
      else .ok { amount := s / p.size }

/-- Example data: a fully closed position, with a filled BUY of 10 shares
at 100 and a filled SELL of 10 shares at 110 (so `size = 0` with
nonempty orders). -/
def closedPositionExample : Position :=
  { symbol := "AAPL",
    orders := [
      { symbol := "AAPL", quantity_requested := some 10, quantity_filled := 10,
        side := .BUY, status := .FILLED, avg_fill_price := some { amount := 100 },
        created_at := ⟨0⟩, filled_at := some ⟨0⟩ },
      { symbol := "AAPL", quantity_requested := some 10, quantity_filled := 10,
        side := .SELL, status := .FILLED, avg_fill_price := some { amount := 110 },
        created_at := ⟨0⟩, filled_at := some ⟨0⟩ }] }

/-! ## Broker core (`src/trdr/core/broker/base_broker.py`)

`BaseBroker` holds mutable fields `_cash`, `_positions`, `_equity`,
`_day_trade_count`, `_updated_dt`, `_is_stale_flag`; each of the first
five can be `None` (they are cleared before every refresh).  The three
primitives deferred to concrete subclasses — `_refresh`,
`_place_order`, `_position_opened_today` — are parameters of the
operations below. -/

/-- The broker's mutable state (`BaseBroker.__init__`,
`src/trdr/core/broker/base_broker.py` lines 53-61). -/
structure BrokerState where
  cash : Option Money := none
  positions : Option (List (String × Position)) := none
  equity : Option Money := none
  day_trade_count : Option Int := none
  updated_dt : Option TradingDateTime := none
  is_stale_flag : Bool := true
  deriving Repr, DecidableEq

/-- Error kinds escaping the broker operations.  `pdtRuleViolation` is
`PDTRuleViolationException` and `pdtStrategyError` is
`PDTStrategyException`, both from `trdr.core.broker.pdt.exceptions`
(imported by `base_broker.py` and by the PDT tests; the module's source
file is absent from the tree, but only the constructor names matter
here).  `valueError` covers the `ValueError`s of the state-in-good-order
check, `genericError` the bare `Exception` of the sell-without-position
path, and `attributeError` an attribute access on `None`. -/
inductive BrokerErr where
  | valueError (msg : String)
  | pdtRuleViolation (msg : String)
  | pdtStrategyError (msg : String)
  | genericError (msg : String)
  | attributeError
  deriving Repr, DecidableEq

namespace BaseBroker

/-- `BaseBroker._clear_current_state`
(`src/trdr/core/broker/base_broker.py`, lines 289-297). -/
def _clear_current_state (st : BrokerState) : BrokerState :=
  { st with cash := none, positions := none, equity := none,
            day_trade_count := none, updated_dt := none }

/-- `BaseBroker._is_state_in_good_order`
(`src/trdr/core/broker/base_broker.py`, lines 299-333).  The two
`isinstance` checks of the source hold by typing in this embedding. -/
def _is_state_in_good_order (st : BrokerState) : Except BrokerErr Unit :=
  if st.cash = none then .error (.valueError "Cash is not initialized")
  else if st.positions = none then .error (.valueError "Positions are not initialized")
  else if st.equity = none then
    .error (.valueError "Equity is not initialized. The subclass _refresh() method must set this.")
  else if st.day_trade_count = none then
    .error (.valueError "Day trade count is not initialized. The subclass _refresh() method must set this.")
  else .ok ()

/-- `BaseBroker._stale_handler`
(`src/trdr/core/broker/base_broker.py`, lines 335-351), parameterised by
the subclass primitive `_refresh` and by `TradingDateTime.now()`.  The
returned `Bool` records whether the refresh branch ran (i.e. whether
`_refresh` was called); it is instrumentation, the source returns
nothing.  A `None` `_updated_dt` would make the source's
`self._updated_dt.timestamp` raise `AttributeError`. -/
def _stale_handler (refresh : BrokerState → BrokerState) (now : TradingDateTime)
    (st : BrokerState) : Except BrokerErr (BrokerState × Bool) :=
  match st.updated_dt with
  | none => .error .attributeError
  | some upd =>
    let flag := if upd.timestamp < now.timestamp - 600 then true else st.is_stale_flag
    if flag then
      let st2 := { refresh (_clear_current_state st) with updated_dt := some now }
      match _is_state_in_good_order st2 with
      | .error e => .error e
      | .ok _ => .ok ({ st2 with is_stale_flag := false }, true)
    else
      .ok ({ st with is_stale_flag := false }, false)

/-- `BaseBroker._get_positions_opened_today_count`
(`src/trdr/core/broker/base_broker.py`, lines 144-158), with the
subclass primitive `_position_opened_today` as a parameter. -/
def _get_positions_opened_today_count (openedToday : String → Bool)
    (positions : List (String × Position)) : Int :=
  (positions.countP (fun kv => openedToday kv.1) : Int)

/-- `BaseBroker._validate_pre_order`
(`src/trdr/core/broker/base_broker.py`, lines 242-287): build a
`PDTContext` (with `positions_opened_today` for a BUY, with
`position_opened_today` for a SELL after checking that a position
exists), ask the PDT strategy, and raise `PDTRuleViolationException`
with the decision's reason when it is not allowed.  The `_` branch
models the pydantic validation failure that reading a `None`
`_day_trade_count`/`_positions` would cause; `place_order` only calls
this after `_stale_handler` has verified the state is in good order. -/
def _validate_pre_order (strategy : PDTContext → PDTDecision) (openedToday : String → Bool)
    (st : BrokerState) (symbol : String) (side : OrderSide) (dollar_amount : Money) :
    Except BrokerErr Unit :=
  match st.day_trade_count, st.positions with
  | some dtc, some ps =>
    let context0 : PDTContext :=
      { symbol := symbol, side := side, amount := some dollar_amount,
        rolling_day_trade_count := dtc, equity := st.equity }
    let contextE : Except BrokerErr PDTContext :=
      match side with
      | .BUY =>
        .ok { context0 with positions_opened_today := _get_positions_opened_today_count openedToday ps }
      | .SELL =>
        match ps.find? (fun kv => kv.1 = symbol) with
        | none => .error (.genericError s!"Cannot sell {symbol}: no position exists")
        | some _ => .ok { context0 with position_opened_today := openedToday symbol }
    match contextE with
    | .error e => .error e
    | .ok context =>
      let decision := strategy context
      if !decision.allowed then
        .error (.pdtRuleViolation (decision.reason.getD "PDT restrictions prevent this order"))
      else .ok ()
  | _, _ => .error .attributeError

/-- `BaseBroker.place_order`
(`src/trdr/core/broker/base_broker.py`, lines 219-234): run the stale
handler, validate against the PDT strategy, delegate to the subclass
`_place_order` (the `placeImpl` parameter), then set the stale flag. -/
def place_order (refresh placeImpl : BrokerState → BrokerState)
    (openedToday : String → Bool) (strategy : PDTContext → PDTDecision)
    (now : TradingDateTime) (st : BrokerState)
    (symbol : String) (side : OrderSide) (dollar_amount : Money) :
    Except BrokerErr BrokerState :=
  match _stale_handler refresh now st with
  | .error e => .error e
  | .ok (st1, _) =>
    match _validate_pre_order strategy openedToday st1 symbol side dollar_amount with
    | .error e => .error e
    | .ok _ =>
      let st2 := placeImpl st1
      .ok { st2 with is_stale_flag := true }

/-- `BaseBroker.get_available_cash`
(`src/trdr/core/broker/base_broker.py`, lines 160-165): run the stale
handler, then read `_cash` from the (possibly refreshed) state.  The
returned `Bool` is the stale handler's instrumentation bit. -/
def get_available_cash (refresh : BrokerState → BrokerState) (now : TradingDateTime)
    (st : BrokerState) : Except BrokerErr (Option Money × BrokerState × Bool) :=
  match _stale_handler refresh now st with
  | .error e => .error e
  | .ok (st1, refreshed) => .ok (st1.cash, st1, refreshed)

end BaseBroker

/-! ## Timeframes, bars and securities
(`src/trdr/core/shared/models.py`, `src/trdr/core/bar_provider/models.py`,
`src/trdr/core/security_provider/models.py`) -/

/-- `Timeframe` enum (`src/trdr/core/shared/models.py`, lines 154-161);
the enum value is a duration in seconds. -/
inductive Timeframe where
  | m15
  | d1
  | d5
  | d20
  | d50
  | d100
  | d200
  deriving Repr, DecidableEq

/-- The enum member values of `Timeframe`. -/
def Timeframe.value : Timeframe → Nat
  | .m15 => 900
  | .d1 => 86400
  | .d5 => 432000
  | .d20 => 1728000
  | .d50 => 4320000
  | .d100 => 8640000
  | .d200 => 17280000

/-- `Timeframe.to_days` (`src/trdr/core/shared/models.py`, lines 163-164):
`self.value // 86400` (floor division; `0` for `m15`). -/
def Timeframe.to_days (t : Timeframe) : Nat := t.value / 86400

/-- `Bar` (`src/trdr/core/bar_provider/models.py`): a validated OHLCV
record.  (`open` is a Lean keyword, hence the quoted field name.) -/
structure Bar where
  trading_datetime : TradingDateTime
  «open» : Money
  high : Money
  low : Money
  close : Money
  volume : Int
  deriving Repr, DecidableEq

/-- `Security` (`src/trdr/core/security_provider/models.py`): a symbol, a
current bar, and the historical bars ordered oldest→newest. -/
structure Security where
  symbol : String
  current_bar : Bar
  bars : List Bar
  deriving Repr, DecidableEq

/-- Python list slice `xs[:-k]` (for `k ≥ 1`): drop the last `k`
elements (all of them when `k ≥ len(xs)`). -/
def pyDropLast (xs : List α) (k : Nat) : List α := xs.take (xs.length - k)

/-- Python list slice `xs[-n:]`: the last `n` elements — except that
`xs[-0:]` is the whole list. -/
def pySliceLast (xs : List α) (n : Nat) : List α :=
  if n = 0 then xs else xs.drop (xs.length - n)

/-- The `relevant_bars` prefix computed at the top of both indicator
methods (`src/trdr/core/security_provider/models.py`, lines 51-54 and
73-77): the full history, truncated by `offset` bars when `offset` is
non-zero (Python `if offset:`). -/
def Security.relevant_bars (s : Security) (offset : Nat) : List Bar :=
  if offset ≠ 0 then pyDropLast s.bars offset else s.bars

/-- `Security.compute_average_volume`
(`src/trdr/core/security_provider/models.py`, lines 46-59): `None`
("missing") when fewer bars than `period.to_days()` are available, else
the floor-mean of the last `to_days` volumes.  For `m15`,
`to_days() = 0`, the missing-data guard `len < 0` cannot fire, and
`sum_volumes // index` raises `ZeroDivisionError`. -/
def Security.compute_average_volume (s : Security) (period : Timeframe)
    (offset : Nat) : Except PyErr (Option Money) :=
  let relevant_bars := s.relevant_bars offset
  if relevant_bars.length < period.to_days then .ok none
  else
    let index := period.to_days
    let sum_volumes := ((pySliceLast relevant_bars index).map Bar.volume).sum
    if index = 0 then .error .divisionByZero
    else .ok (some { amount := (sum_volumes.fdiv index : Int) })

/-- `Security.compute_moving_average`
(`src/trdr/core/security_provider/models.py`, lines 61-82): `None`
("missing") when fewer bars than `period.to_days()` are available, else
the mean of the last `to_days` closes.  For `m15`, `to_days() = 0` and
`sum_prices / index` raises `DivisionByZero`. -/
def Security.compute_moving_average (s : Security) (period : Timeframe)
    (offset : Nat) : Except PyErr (Option Money) :=
  let relevant_bars := s.relevant_bars offset
  if relevant_bars.length < period.to_days then .ok none
  else
    let index := period.to_days
    let sum_prices := ((pySliceLast relevant_bars index).map (fun b => b.close.amount)).sum
    if index = 0 then .error .divisionByZero
    else .ok (some { amount := sum_prices / (index : Dec) })

/-- `Security.has_bullish_moving_average_crossover`
(`src/trdr/core/security_provider/models.py`, lines 84-105): compute the
short and long moving averages for today (`offset = 0`) and yesterday
(`offset = 1`); if any is `None`, return `False`; else yesterday's
short MA must be strictly below the long MA and today's strictly
above. -/
def Security.has_bullish_moving_average_crossover (s : Security)
    (short_period long_period : Timeframe) : Except PyErr Bool :=
  match s.compute_moving_average short_period 0 with
  | .error e => .error e
  | .ok short_today =>
    match s.compute_moving_average long_period 0 with
    | .error e => .error e
    | .ok long_today =>
      match s.compute_moving_average short_period 1 with
      | .error e => .error e
      | .ok short_yesterday =>
        match s.compute_moving_average long_period 1 with
        | .error e => .error e
        | .ok long_yesterday =>
          match short_today, long_today, short_yesterday, long_yesterday with
          | some st, some lt, some sy, some ly =>
            .ok (decide (sy.amount < ly.amount) && decide (st.amount > lt.amount))
          | _, _, _, _ => .ok false

/-- Example data: a six-bar history whose closes are
`[2, 2, 2, 2, 1, 10]`, giving a bullish `d1`/`d5` crossover (yesterday
`MA1 = 1 < MA5 = 9/5`; today `MA1 = 10 > MA5 = 17/5`). -/
def crossoverSecurityExample : Security :=
  let mkBar : Dec → Bar := fun c =>
    { trading_datetime := ⟨0⟩, «open» := { amount := c }, high := { amount := c },
      low := { amount := c }, close := { amount := c }, volume := 100 }
  { symbol := "AAPL",
    current_bar := mkBar 10,
    bars := [mkBar 2, mkBar 2, mkBar 2, mkBar 2, mkBar 1, mkBar 10] }

/-- Example data: a security with 30 identical bars (spec §8 scenario 3:
not enough history for a 50-day indicator). -/
def thirtyBarSecurityExample : Security :=
  let bar : Bar :=
    { trading_datetime := ⟨0⟩, «open» := { amount := 1 }, high := { amount := 1 },
      low := { amount := 1 }, close := { amount := 1 }, volume := 100 }
  { symbol := "AAPL", current_bar := bar, bars := List.replicate 30 bar }

/-! ## Strategy-DSL AST and evaluator (`src/trdr/dsl/dsl_ast.py`)

The parser (`src/trdr/dsl/parser.py`) builds exactly the node kinds
`Literal`, `Identifier`, `BinaryExpression`, `AllOf`, `AnyOf`,
`SizingRule` and `Sizing` (it imports no others; in particular it never
constructs a `CrossoverExpression` — crossover operators are parsed into
`BinaryExpression` nodes), so those are the constructors of the
expression type. -/

/-- The value a Python `Literal` node stores: `parse_factor` creates
`int(...)` for dot-less NUMBER tokens, `float(...)` for dotted ones, and
a plain string for STRING tokens.  A Python float is approximated by the
exact decimal value of its literal. -/
inductive PyLit where
  | int (i : Int)
  | float (q : Dec)
  | str (s : String)
  deriving Repr, DecidableEq

/-- Expression nodes of `src/trdr/dsl/dsl_ast.py` (the subset the parser
produces, see above). -/
inductive Expr where
  | literal (value : PyLit)
  | identifier (name : String)
  | binary (left : Expr) (operator : String) (right : Expr)
  | all_of (conditions : List Expr)
  | any_of (conditions : List Expr)

/-- `SizingRule` (`src/trdr/dsl/dsl_ast.py`, lines 224-227): an optional
condition plus a value expression. -/
structure SizingRule where
  condition : Option Expr
  value : Expr

/-- `Sizing` (`src/trdr/dsl/dsl_ast.py`, lines 256-258): an ordered list
of sizing rules. -/
structure Sizing where
  rules : List SizingRule

/-- `StrategyAST` (`src/trdr/dsl/dsl_ast.py`, lines 279-292).
`parse_strategy` passes `None` for any of `entry`/`exit`/`sizing` whose
field is absent from the source text, hence the `Option`s. -/
structure StrategyAST where
  name : String
  description : String
  entry : Option Expr
  exit : Option Expr
  sizing : Option Sizing

/-- A value produced by evaluating an expression: Python `Decimal` for
literals, identifiers and arithmetic, `bool` for comparisons and
composites. -/
inductive Val where
  | num (q : Dec)
  | bool (b : Bool)
  deriving Repr, DecidableEq

/-- Python truthiness of an evaluated value (`all(...)`/`any(...)` and
the sizing-rule condition test use it): a `Decimal` is truthy iff
nonzero, a `bool` is itself. -/
def Val.truthy : Val → Bool
  | .num q => decide (q ≠ 0)
  | .bool b => b

/-- Numeric coercion used by Python's comparison and arithmetic
operators (`bool` is an `int` subtype: `True == 1`). -/
def Val.toNum : Val → Dec
  | .num q => q
  | .bool b => if b then 1 else 0

/-- Error kinds raised by the evaluator (spec §7 labels):
`missingContext` is `MissingContextValue`, `sizingError` the
`ValueError` of an exhausted sizing loop, `unsupportedOperator` and
`invalidOperation` the remaining `ValueError`s, and `typeError` the
`TypeError` Python raises when `await` receives a non-awaitable (the
result of calling a *synchronous* `evaluate`). -/
inductive EvalErr where
  | missingContext (name : String)
  | sizingError (msg : String)
  | unsupportedOperator (op : String)
  | invalidOperation
  | typeError
  | divisionByZero
  deriving Repr, DecidableEq

/-- Modelled from the spec: `TradingContext` (module
`trdr.core.trading_context.trading_context` is imported by `dsl_ast.py`
and has tests, but its source file is not in the tree).  Spec §4.F: it
maps identifier names to values; a `Money` value exposes its amount and
other numbers coerce to decimal, so the embedding stores the resulting
decimal directly. -/
structure TradingContext where
  values : String → Option Dec

/-- Modelled from the spec: `TradingContext.get_value_for_identifier`
(spec §4.F) — look the name up; if absent or null, fail with
`MissingContextValue(name)`. -/
def TradingContext.get_value_for_identifier (ctx : TradingContext) (name : String) :
    Except EvalErr Dec :=
  match ctx.values name with
  | none => .error (.missingContext name)
  | some q => .ok q

/-- The immediate result of *calling* a node's `evaluate(context)`.
`dsl_ast.py` mixes `async def` and plain `def` among the `evaluate`
methods: `Identifier.evaluate`, `BinaryExpression.evaluate` and
`AllOf.evaluate` are `async def` (line 61, 78, 185), while
`Literal.evaluate` and `AnyOf.evaluate` are plain `def` (lines 50,
208).  Calling an `async def` returns a *coroutine object* — its body
runs only when awaited — while calling a plain `def` runs the body at
once and returns its value.  A coroutine is modelled by the outcome
that awaiting it would produce (running it has no observable effect
other than that outcome). -/
inductive CallResult where
  | value (v : Val)
  | coroutine (r : Except EvalErr Val)

/-- Python `await` on a call result: awaiting a coroutine runs its body
(yielding its value, or raising its exception); awaiting anything else —
the `Decimal` returned by `Literal.evaluate`, the `bool` returned by
`AnyOf.evaluate` — raises
`TypeError("object ... can't be used in 'await' expression")`. -/
def awaitOn : CallResult → Except EvalErr Val
  | .coroutine r => r
  | .value _ => .error .typeError

/-- Python truthiness of a call result as tested *without* awaiting it
(`AnyOf.evaluate` and `Sizing.evaluate` do exactly this): a coroutine
object is always truthy, a plain value by its own truthiness. -/
def callTruthy : CallResult → Bool
  | .coroutine _ => true
  | .value v => v.truthy

/-- The operator dispatch of `BinaryExpression.evaluate`
(`src/trdr/dsl/dsl_ast.py`, lines 84-99), reached only after both
operands have been awaited successfully: comparisons yield booleans,
arithmetic yields decimals, a zero divisor raises, and any other
operator — e.g. the `CROSSED_ABOVE`/`CROSSED_BELOW` the parser leaves
in `BinaryExpression` nodes — raises
`ValueError("Unsupported operator ...")`. -/
def binaryOp (lv : Val) (op : String) (rv : Val) : Except EvalErr Val :=
  if op = ">" then .ok (.bool (decide (lv.toNum > rv.toNum)))
  else if op = "<" then .ok (.bool (decide (lv.toNum < rv.toNum)))
  else if op = "==" then .ok (.bool (decide (lv.toNum = rv.toNum)))
  else if op = "+" then .ok (.num (lv.toNum + rv.toNum))
  else if op = "-" then .ok (.num (lv.toNum - rv.toNum))
  else if op = "*" then .ok (.num (lv.toNum * rv.toNum))
  else if op = "/" then
    if rv.toNum = 0 then .error .divisionByZero
    else .ok (.num (lv.toNum / rv.toNum))
  else .error (.unsupportedOperator op)

mutual

/-- Calling `node.evaluate(context)` for each node class of
`src/trdr/dsl/dsl_ast.py`:
* `Literal.evaluate` (lines 50-51, plain `def`): runs at once,
  returning `Decimal(self.value)` — exact for ints and (the decimal
  reading of) floats, an `InvalidOperation` for the non-numeric strings
  that concern no claim;
* `Identifier.evaluate` (lines 61-66, `async def`): a coroutine that,
  when awaited, looks the name up in the context;
* `BinaryExpression.evaluate` (lines 78-99, `async def`): a coroutine
  that, when awaited, does `await self.left.evaluate(context)`, then
  `await self.right.evaluate(context)`, then the operator dispatch.
  When an operand is a *synchronous* node (a `Literal` or an `AnyOf`)
  the `await` receives a plain `Decimal`/`bool` and raises `TypeError`
  before any operator is examined;
* `AllOf.evaluate` (lines 185-191, `async def`): a coroutine that,
  when awaited, *first* evaluates every child in order
  (`results = [await c.evaluate(context) for c in conditions]` — see
  `awaitList`), then returns `all(results)`;
* `AnyOf.evaluate` (lines 208-211, plain `def`): runs at once —
  `any(condition.evaluate(context) for condition in conditions)` tests
  the *unawaited* call results (see `anyGen`), so a child with an
  `async` evaluate contributes an always-truthy coroutine object. -/
def callEvaluate (ctx : TradingContext) : Expr → Except EvalErr CallResult
  | .literal (.int i) => .ok (.value (.num (i : Dec)))
  | .literal (.float q) => .ok (.value (.num q))
  | .literal (.str _) => .error .invalidOperation
  | .identifier name =>
    .ok (.coroutine (
      match ctx.get_value_for_identifier name with
      | .error e => .error e
      | .ok q => .ok (.num q)))
  | .binary l op r =>
    .ok (.coroutine (
      match callEvaluate ctx l with
      | .error e => .error e
      | .ok lc =>
        match awaitOn lc with
        | .error e => .error e
        | .ok lv =>
          match callEvaluate ctx r with
          | .error e => .error e
          | .ok rc =>
            match awaitOn rc with
            | .error e => .error e
            | .ok rv => binaryOp lv op rv))
  | .all_of cs =>
    .ok (.coroutine (
      match awaitList ctx cs with
      | .error e => .error e
      | .ok results => .ok (.bool (results.all Val.truthy))))
  | .any_of cs =>
    match anyGen ctx cs with
    | .error e => .error e
    | .ok b => .ok (.value (.bool b))

/-- The list comprehension inside `AllOf.evaluate`
(`results = [await condition.evaluate(context) for condition in
self.conditions]`): per child, in order, call and then await; an
exception aborts the remaining children. -/
def awaitList (ctx : TradingContext) : List Expr → Except EvalErr (List Val)
  | [] => .ok []
  | c :: cs =>
    match callEvaluate ctx c with
    | .error e => .error e
    | .ok cr =>
      match awaitOn cr with
      | .error e => .error e
      | .ok v =>
        match awaitList ctx cs with
        | .error e => .error e
        | .ok vs => .ok (v :: vs)

/-- The generator inside the synchronous `AnyOf.evaluate`
(`any(condition.evaluate(context) for condition in self.conditions)`):
children in order, short-circuiting at the first truthy *call result* —
which is never awaited, so an async child's coroutine counts as
truthy. -/
def anyGen (ctx : TradingContext) : List Expr → Except EvalErr Bool
  | [] => .ok false
  | c :: cs =>
    match callEvaluate ctx c with
    | .error e => .error e
    | .ok cr => if callTruthy cr then .ok true else anyGen ctx cs

end

/-- `await node.evaluate(context)`: call, then await — what
`BinaryExpression.evaluate`, `AllOf.evaluate` and the engine-level
entry/exit evaluation do with a node. -/
def awaitEval (ctx : TradingContext) (e : Expr) : Except EvalErr Val :=
  match callEvaluate ctx e with
  | .error e' => .error e'
  | .ok cr => awaitOn cr

/-- Instrumentation for `AllOf.evaluate`: the sequence of
`await c.evaluate(context)` steps its list comprehension performs —
children are visited in order and visiting stops only when a step
raises (never merely because an earlier child was false). -/
def allOfCalls (ctx : TradingContext) : List Expr → List (Except EvalErr Val)
  | [] => []
  | c :: cs =>
    match awaitEval ctx c with
    | .error e => [.error e]
    | .ok v => .ok v :: allOfCalls ctx cs

/-- Does calling this node's `evaluate` return a coroutine?
(`Identifier`, `BinaryExpression` and `AllOf` have `async def`
evaluate; `Literal` and `AnyOf` have plain `def`.) -/
def Expr.isAsyncNode : Expr → Bool
  | .identifier _ => true
  | .binary _ _ _ => true
  | .all_of _ => true
  | _ => false

/-- `Sizing.evaluate` (`src/trdr/dsl/dsl_ast.py`, lines 260-266) — a
plain `def` that never awaits: walk the rules in declaration order; the
first whose condition is absent, or whose *unawaited*
`rule.condition.evaluate(context)` call is truthy, returns the
unawaited call of its value expression; an exhausted loop raises
`ValueError("No sizing rule matched the context.")`.  Because an async
condition's call is an always-truthy coroutine object, such a rule
matches regardless of its condition's value. -/
def evalSizing (ctx : TradingContext) : List SizingRule → Except EvalErr CallResult
  | [] => .error (.sizingError "No sizing rule matched the context.")
  | r :: rs =>
    match r.condition with
    | none => callEvaluate ctx r.value
    | some c =>
      match callEvaluate ctx c with
      | .error e => .error e
      | .ok cr => if callTruthy cr then callEvaluate ctx r.value else evalSizing ctx rs

/-- Example data: a context with `A = 1` and `B = 2`. -/
def abContextExample : TradingContext :=
  ⟨fun name => if name = "A" then some 1 else if name = "B" then some 2 else none⟩

/-- Example data: the comparison `A > B` — all-async, so its awaited
evaluation succeeds, yielding `False` under `abContextExample`. -/
def falseCompareExample : Expr := .binary (.identifier "A") ">" (.identifier "B")

/-- Example data: the comparison `A < B` — awaited evaluation yields
`True` under `abContextExample`. -/
def trueCompareExample : Expr := .binary (.identifier "A") "<" (.identifier "B")

/-- Example data: a context with `AVAILABLE_CASH = 20000`. -/
def cashContextExample : TradingContext :=
  ⟨fun name => if name = "AVAILABLE_CASH" then some 20000 else none⟩

/-- Example data: a sizing rule whose condition is the *synchronous*
literal `0` — the one kind of condition `Sizing.evaluate` really tests
by value — so the rule is skipped. -/
def skippedRuleExample : SizingRule :=
  { condition := some (.literal (.int 0)), value := .literal (.int 999) }

/-- Example data: a sizing rule whose condition `A > B` is an async
comparison: its call is a coroutine, truthy without ever being awaited,
although its awaited value would be `False`. -/
def asyncCondRuleExample : SizingRule :=
  { condition := some falseCompareExample, value := .literal (.int 999) }

/-- Example data: the sizing rule of spec §6 —
`CONDITION any_of(AVAILABLE_CASH > 10000)`, `DOLLAR_AMOUNT 2000`.
`AnyOf.evaluate` is synchronous, so the condition call yields a plain
`bool`. -/
def matchedRuleExample : SizingRule :=
  { condition := some (.any_of [.binary (.identifier "AVAILABLE_CASH") ">"
      (.literal (.int 10000))]),
    value := .literal (.int 2000) }

/-- Example data: a condition-less sizing rule with value 2000. -/
def conditionlessRuleExample : SizingRule :=
  { condition := none, value := .literal (.int 2000) }

/-- Example data: a trailing sizing rule without a condition. -/
def fallbackRuleExample : SizingRule :=
  { condition := none, value := .literal (.int 1) }

/-! ## Tokens and the recursive-descent parser (`src/trdr/dsl/parser.py`)

Tokens are produced by `trdr.dsl.lexer` (file absent from the tree; the
token shape is as consumed by `parser.py` and described in spec §4.D: a
kind, a string value, and a 1-based source line).

The Python parser is a class holding `tokens` and a cursor `pos`; the
embedding passes the token list and the cursor explicitly — each
function returns the parsed node together with the cursor after it.
Python's recursion needs no termination argument, so the embedding adds
an explicit `fuel` counter; `outOfFuel` is an embedding artifact that no
run in this file reaches. -/

/-- Token kinds (spec §4.D). -/
inductive TokenType where
  | IDENTIFIER
  | NUMBER
  | STRING
  | OPERATOR
  | LEFT_PAREN
  | RIGHT_PAREN
  | INDENT
  | DEDENT
  | EOF
  deriving Repr, DecidableEq

/-- A lexer token: kind, raw text, 1-based source line. -/
structure Token where
  type : TokenType
  value : String
  line : Nat
  deriving Repr, DecidableEq

/-- `ParserError` (`src/trdr/dsl/parser.py`, lines 16-19): a message and
an optional line number.  `outOfFuel` is the embedding's fuel-exhaustion
marker (see above), not a source error. -/
inductive ParserError where
  | parserError (message : String) (line : Option Nat)
  | outOfFuel
  deriving Repr, DecidableEq

/-- Python `str.upper()` on the ASCII identifiers and operators of the
DSL.  (Lean's `String.toUpper` is position-based and does not reduce
definitionally, so the embedding maps over the character list.) -/
def pyUpper (s : String) : String := ⟨s.data.map Char.toUpper⟩

/-- Python `'.' in s` for a token text. -/
def pyContains (s : String) (c : Char) : Bool := s.data.contains c

/-- Python `str.strip('"')`: remove leading and trailing `"` characters
(used on NAME/DESCRIPTION and string literals). -/
def stripQuotes (s : String) : String :=
  ⟨((s.data.dropWhile (· = '"')).reverse.dropWhile (· = '"')).reverse⟩

/-- The numeric value of a (possibly empty) digit string. -/
def digitsVal (s : List Char) : Nat :=
  s.foldl (fun n c => n * 10 + (c.toNat - 48)) 0

/-- Python `int(s)` as applied to lexer NUMBER tokens (unsigned digit
runs): the value, or `None` when the text is not all digits. -/
def pyInt? (s : String) : Option Int :=
  if ¬ s.data.isEmpty ∧ s.data.all Char.isDigit then some (digitsVal s.data) else none

/-- Python `float(s)` as applied to dotted NUMBER tokens, read exactly
as a decimal (`ip.fp`); `None` when the text is not of that shape
(e.g. `1.2.3`, which makes the source raise "Invalid number format"). -/
def pyFloat? (s : String) : Option Dec :=
  match s.data.splitOn '.' with
  | [ip, fp] =>
    if (ip.isEmpty ∧ fp.isEmpty) ∨ ¬ ip.all Char.isDigit ∨ ¬ fp.all Char.isDigit then none
    else some ((digitsVal ip : Dec) + (digitsVal fp : Dec) / ((10 : Dec) ^ fp.length))
  | _ => none

namespace Parser

/-- `Parser.current` (`src/trdr/dsl/parser.py`, lines 27-32): the token
at the cursor, or an artificial EOF token carrying the last token's
line. -/
def current (tokens : List Token) (pos : Nat) : Token :=
  match tokens.get? pos with
  | some t => t
  | none =>
    { type := .EOF, value := "",
      line := match tokens.getLast? with | some t => t.line | none => 0 }

/-- `Parser.expect` (`src/trdr/dsl/parser.py`, lines 37-45): check the
current token's kind (and, when given, its exact value), then advance. -/
def expect (tokens : List Token) (pos : Nat) (tt : TokenType) (value : Option String) :
    Except ParserError (Token × Nat) :=
  let token := current tokens pos
  if token.type ≠ tt ∨ (value.isSome ∧ value ≠ some token.value) then
    .error (.parserError ("Expected token of other type or value, got '" ++ token.value ++ "'")
      (some token.line))
  else .ok (token, pos + 1)

/-- Is this token one of the comparison/crossover operators accepted by
`parse_comparison` (`src/trdr/dsl/parser.py`, lines 149-157)?  The token
may be an OPERATOR or an IDENTIFIER; the value is compared
case-insensitively. -/
def isComparisonOp (t : Token) : Bool :=
  (t.type = TokenType.OPERATOR ∨ t.type = TokenType.IDENTIFIER) ∧
    (pyUpper t.value = ">" ∨ pyUpper t.value = "<" ∨ pyUpper t.value = "==" ∨
     pyUpper t.value = "CROSSED_ABOVE" ∨ pyUpper t.value = "CROSSED_BELOW")

/-- The record of parsing functions at one recursion depth.  Python's
recursive descent needs no termination argument; the embedding builds
the parser by structural recursion on a fuel counter (`parsers` below),
each level holding one function per grammar production.  Exhausted fuel
gives `outOfFuel`, which no run in this file reaches. -/
structure Parsers where
  strategy : List Token → Nat → Except ParserError (StrategyAST × Nat)
  strategyFields : List Token → Nat → Option String → Option String → Option Expr →
    Option Expr → Option Sizing → Except ParserError ((Option String × Option String ×
      Option Expr × Option Expr × Option Sizing) × Nat)
  entryOrExit : List Token → Nat → Except ParserError (Expr × Nat)
  expression : List Token → Nat → Except ParserError (Expr × Nat)
  compositeBlock : List Token → Nat → Except ParserError (List Expr × Nat)
  exprSeq : List Token → Nat → Except ParserError (List Expr × Nat)
  comparison : List Token → Nat → Except ParserError (Expr × Nat)
  arithmetic : List Token → Nat → Except ParserError (Expr × Nat)
  arithLoop : List Token → Nat → Expr → Except ParserError (Expr × Nat)
  term : List Token → Nat → Except ParserError (Expr × Nat)
  termLoop : List Token → Nat → Expr → Except ParserError (Expr × Nat)
  factor : List Token → Nat → Except ParserError (Expr × Nat)
  sizing : List Token → Nat → Except ParserError (Sizing × Nat)
  ruleSeq : List Token → Nat → Except ParserError (List SizingRule × Nat)
  sizingRule : List Token → Nat → Except ParserError (SizingRule × Nat)
  ruleFields : List Token → Nat → Option Expr → Option Expr →
    Except ParserError ((Option Expr × Option Expr) × Nat)
  conditionBlock : List Token → Nat → Except ParserError (Expr × Nat)

/-- The fuel-exhausted parser level. -/
def Parsers.empty : Parsers :=
  { strategy := fun _ _ => .error .outOfFuel,
    strategyFields := fun _ _ _ _ _ _ _ => .error .outOfFuel,
    entryOrExit := fun _ _ => .error .outOfFuel,
    expression := fun _ _ => .error .outOfFuel,
    compositeBlock := fun _ _ => .error .outOfFuel,
    exprSeq := fun _ _ => .error .outOfFuel,
    comparison := fun _ _ => .error .outOfFuel,
    arithmetic := fun _ _ => .error .outOfFuel,
    arithLoop := fun _ _ _ => .error .outOfFuel,
    term := fun _ _ => .error .outOfFuel,
    termLoop := fun _ _ _ => .error .outOfFuel,
    factor := fun _ _ => .error .outOfFuel,
    sizing := fun _ _ => .error .outOfFuel,
    ruleSeq := fun _ _ => .error .outOfFuel,
    sizingRule := fun _ _ => .error .outOfFuel,
    ruleFields := fun _ _ _ _ => .error .outOfFuel,
    conditionBlock := fun _ _ => .error .outOfFuel }

/-- One level of the recursive-descent parser
(`src/trdr/dsl/parser.py`), with `P` the functions available for the
recursive calls:

* `strategy` = `parse_strategy` (lines 50-84): `STRATEGY`, `INDENT`, the
  field loop (`strategyFields`, lines 59-75: NAME/DESCRIPTION strings
  with quotes stripped, ENTRY/EXIT composites, SIZING; unknown fields
  are errors), `DEDENT`; absent name/description default to `""`.
* `entryOrExit` = `parse_entry_or_exit` (lines 86-106): must open with a
  composite operator and contain a single composite expression.
* `expression` = `parse_expression` (lines 121-135).
* `compositeBlock` = `parse_composite_block` (lines 137-144), its
  expression loop being `exprSeq`.
* `comparison` = `parse_comparison` (lines 146-162): an arithmetic
  expression, optionally followed by a comparison/crossover operator
  (OPERATOR *or IDENTIFIER* token) and a second arithmetic expression —
  crossover operands are *not* checked here; whatever `arithmetic`
  returns becomes an operand of a `BinaryExpression`.
* `arithmetic`/`term`/`factor` (lines 164-206) with their `while` loops
  `arithLoop`/`termLoop`; numbers parse dotted → float, else int;
  strings get their quotes stripped.
* `sizing` = `parse_sizing` (lines 208-216) with rule loop `ruleSeq`;
  `sizingRule` = `parse_sizing_rule` (lines 218-241, a missing
  `DOLLAR_AMOUNT` is a `ParserError` with no line number) with field
  loop `ruleFields`; `conditionBlock` = `parse_condition_block`
  (lines 243-263). -/
def parseStep (P : Parsers) : Parsers where
  strategy := fun tokens pos => do
    let (_, pos) ← expect tokens pos .IDENTIFIER (some "STRATEGY")
    let (_, pos) ← expect tokens pos .INDENT none
    let ((name, description, entry, exit, sizing), pos) ←
      P.strategyFields tokens pos none none none none none
    let (_, pos) ← expect tokens pos .DEDENT none
    .ok ({ name := name.getD "", description := description.getD "",
           entry := entry, exit := exit, sizing := sizing }, pos)
  strategyFields := fun tokens pos name description entry exit sizing =>
    if (current tokens pos).type ≠ .DEDENT ∧ (current tokens pos).type ≠ .EOF then do
      let (field_token, pos) ← expect tokens pos .IDENTIFIER none
      let field_name := pyUpper field_token.value
      if field_name = "NAME" then do
        let (value_token, pos) ← expect tokens pos .STRING none
        P.strategyFields tokens pos (some (stripQuotes value_token.value))
          description entry exit sizing
      else if field_name = "DESCRIPTION" then do
        let (value_token, pos) ← expect tokens pos .STRING none
        P.strategyFields tokens pos name (some (stripQuotes value_token.value))
          entry exit sizing
      else if field_name = "ENTRY" then do
        let (e, pos) ← P.entryOrExit tokens pos
        P.strategyFields tokens pos name description (some e) exit sizing
      else if field_name = "EXIT" then do
        let (e, pos) ← P.entryOrExit tokens pos
        P.strategyFields tokens pos name description entry (some e) sizing
      else if field_name = "SIZING" then do
        let (sz, pos) ← P.sizing tokens pos
        P.strategyFields tokens pos name description entry exit (some sz)
      else
        .error (.parserError ("Unknown field '" ++ field_token.value ++ "'")
          (some field_token.line))
    else
      .ok ((name, description, entry, exit, sizing), pos)
  entryOrExit := fun tokens pos => do
    let (_, pos) ← expect tokens pos .INDENT none
    let token := current tokens pos
    if token.type ≠ .IDENTIFIER ∨
        (pyUpper token.value ≠ "ALL_OF" ∧ pyUpper token.value ≠ "ANY_OF") then
      .error (.parserError
        "Entry/Exit block must start with a composite operator ('ALL_OF' or 'ANY_OF')."
        (some token.line))
    else do
      let (expr, pos) ← P.expression tokens pos
      if (current tokens pos).type ≠ .DEDENT then
        .error (.parserError
          "Entry/Exit block must contain a single composite expression (wrap multiple conditions inside all_of or any_of)."
          (some token.line))
      else do
        let (_, pos) ← expect tokens pos .DEDENT none
        .ok (expr, pos)
  expression := fun tokens pos =>
    let token := current tokens pos
    if token.type = .IDENTIFIER ∧
        (pyUpper token.value = "ALL_OF" ∨ pyUpper token.value = "ANY_OF") then do
      let (exprs, pos') ← P.compositeBlock tokens (pos + 1)
      if pyUpper token.value = "ALL_OF" then .ok (.all_of exprs, pos')
      else .ok (.any_of exprs, pos')
    else
      P.comparison tokens pos
  compositeBlock := fun tokens pos => do
    let (_, pos) ← expect tokens pos .INDENT none
    let (exprs, pos) ← P.exprSeq tokens pos
    let (_, pos) ← expect tokens pos .DEDENT none
    .ok (exprs, pos)
  exprSeq := fun tokens pos =>
    if (current tokens pos).type ≠ .DEDENT ∧ (current tokens pos).type ≠ .EOF then do
      let (e, pos) ← P.expression tokens pos
      let (es, pos) ← P.exprSeq tokens pos
      .ok (e :: es, pos)
    else
      .ok ([], pos)
  comparison := fun tokens pos => do
    let (left, pos) ← P.arithmetic tokens pos
    let token := current tokens pos
    if isComparisonOp token then do
      let (right, pos') ← P.arithmetic tokens (pos + 1)
      .ok (.binary left (pyUpper token.value) right, pos')
    else
      .ok (left, pos)
  arithmetic := fun tokens pos => do
    let (expr, pos) ← P.term tokens pos
    P.arithLoop tokens pos expr
  arithLoop := fun tokens pos expr =>
    let token := current tokens pos
    if token.type = .OPERATOR ∧ (token.value = "+" ∨ token.value = "-") then do
      let (right, pos') ← P.term tokens (pos + 1)
      P.arithLoop tokens pos' (.binary expr token.value right)
    else
      .ok (expr, pos)
  term := fun tokens pos => do
    let (expr, pos) ← P.factor tokens pos
    P.termLoop tokens pos expr
  termLoop := fun tokens pos expr =>
    let token := current tokens pos
    if token.type = .OPERATOR ∧ (token.value = "*" ∨ token.value = "/") then do
      let (right, pos') ← P.factor tokens (pos + 1)
      P.termLoop tokens pos' (.binary expr token.value right)
    else
      .ok (expr, pos)
  factor := fun tokens pos =>
    let token := current tokens pos
    if token.type = .NUMBER then
      if pyContains token.value '.' then
        match pyFloat? token.value with
        | some q => .ok (.literal (.float q), pos + 1)
        | none => .error (.parserError ("Invalid number format '" ++ token.value ++ "'")
            (some token.line))
      else
        match pyInt? token.value with
        | some i => .ok (.literal (.int i), pos + 1)
        | none => .error (.parserError ("Invalid number format '" ++ token.value ++ "'")
            (some token.line))
    else if token.type = .STRING then
      .ok (.literal (.str (stripQuotes token.value)), pos + 1)
    else if token.type = .IDENTIFIER then
      .ok (.identifier token.value, pos + 1)
    else if token.type = .LEFT_PAREN then do
      let (expr, pos') ← P.arithmetic tokens (pos + 1)
      let (_, pos'') ← expect tokens pos' .RIGHT_PAREN none
      .ok (expr, pos'')
    else
      .error (.parserError ("Unexpected token with value '" ++ token.value ++ "'")
        (some token.line))
  sizing := fun tokens pos => do
    let (_, pos) ← expect tokens pos .INDENT none
    let (rules, pos) ← P.ruleSeq tokens pos
    let (_, pos) ← expect tokens pos .DEDENT none
    .ok (⟨rules⟩, pos)
  ruleSeq := fun tokens pos =>
    if (current tokens pos).type ≠ .DEDENT ∧ (current tokens pos).type ≠ .EOF then do
      let (_, pos) ← expect tokens pos .IDENTIFIER (some "RULE")
      let (rule, pos) ← P.sizingRule tokens pos
      let (rules, pos) ← P.ruleSeq tokens pos
      .ok (rule :: rules, pos)
    else
      .ok ([], pos)
  sizingRule := fun tokens pos => do
    let (_, pos) ← expect tokens pos .INDENT none
    let ((condition, value), pos) ← P.ruleFields tokens pos none none
    let (_, pos) ← expect tokens pos .DEDENT none
    match value with
    | none => .error (.parserError "Sizing rule must have a dollar amount." none)
    | some v => .ok (⟨condition, v⟩, pos)
  ruleFields := fun tokens pos condition value =>
    if (current tokens pos).type ≠ .DEDENT ∧ (current tokens pos).type ≠ .EOF then do
      let (field_token, pos) ← expect tokens pos .IDENTIFIER none
      let field_name := pyUpper field_token.value
      if field_name = "CONDITION" then do
        let (c, pos) ← P.conditionBlock tokens pos
        P.ruleFields tokens pos (some c) value
      else if field_name = "DOLLAR_AMOUNT" then do
        let (_, pos) ← expect tokens pos .INDENT none
        let (v, pos) ← P.expression tokens pos
        let (_, pos) ← expect tokens pos .DEDENT none
        P.ruleFields tokens pos condition (some v)
      else
        .error (.parserError
          ("Unexpected field '" ++ field_token.value ++ "' in sizing rule")
          (some field_token.line))
    else
      .ok ((condition, value), pos)
  conditionBlock := fun tokens pos => do
    let (_, pos) ← expect tokens pos .INDENT none
    let token := current tokens pos
    if token.type = .IDENTIFIER ∧
        (pyUpper token.value = "ALL_OF" ∨ pyUpper token.value = "ANY_OF") then do
      let (exprs, pos') ← P.compositeBlock tokens (pos + 1)
      let (_, pos'') ← expect tokens pos' .DEDENT none
      if pyUpper token.value = "ALL_OF" then .ok (.all_of exprs, pos'')
      else .ok (.any_of exprs, pos'')
    else do
      let (expr, pos') ← P.expression tokens pos
      let (_, pos'') ← expect tokens pos' .DEDENT none
      .ok (expr, pos'')

/-- The parser at a given fuel depth. -/
def parsers : Nat → Parsers
  | 0 => Parsers.empty
  | fuel + 1 => parseStep (parsers fuel)

/-- `Parser.parse_strategy` at a given fuel depth (`Parser.parse` just
calls it from position 0). -/
def parse_strategy (tokens : List Token) (fuel pos : Nat) :
    Except ParserError (StrategyAST × Nat) :=
  (parsers fuel).strategy tokens pos

/-- `Parser.parse_comparison` at a given fuel depth. -/
def parse_comparison (tokens : List Token) (fuel pos : Nat) :
    Except ParserError (Expr × Nat) :=
  (parsers fuel).comparison tokens pos


end Parser

/-- Example data: the token stream of a strategy whose ENTRY contains
the crossover `CURRENT_PRICE CROSSED_ABOVE MA20`, whose left operand is
not a moving-average identifier. -/
def crossoverTokensExample : List Token :=
  [⟨.IDENTIFIER, "STRATEGY", 1⟩, ⟨.INDENT, "", 2⟩,
   ⟨.IDENTIFIER, "ENTRY", 2⟩, ⟨.INDENT, "", 3⟩,
   ⟨.IDENTIFIER, "ALL_OF", 3⟩, ⟨.INDENT, "", 4⟩,
   ⟨.IDENTIFIER, "CURRENT_PRICE", 4⟩, ⟨.IDENTIFIER, "CROSSED_ABOVE", 4⟩,
   ⟨.IDENTIFIER, "MA20", 4⟩,
   ⟨.DEDENT, "", 5⟩, ⟨.DEDENT, "", 5⟩, ⟨.DEDENT, "", 5⟩, ⟨.EOF, "", 5⟩]

/-- Example data: a context giving values to `CURRENT_PRICE` and
`MA20`. -/
def priceContextExample : TradingContext :=
  ⟨fun name => if name = "CURRENT_PRICE" then some 150
    else if name = "MA20" then some 100 else none⟩

/-! ## Pretty printing (`src/trdr/dsl/dsl_ast.py`)

The `to_pretty_string` methods: string builders for the tree-diagram
rendering of an AST.  (They are written over character lists where
Lean's position-based `String` functions would not reduce.) -/

/-- Python `"\n".join(lines)`. -/
def joinLines : List String → String
  | [] => ""
  | [l] => l
  | l :: ls => l ++ "\n" ++ joinLines ls

/-- Python `"    " * indent`. -/
def indentStr (n : Nat) : String := ⟨List.replicate (4 * n) ' '⟩

/-- Python `" " * n`. -/
def spaces (n : Nat) : String := ⟨List.replicate n ' '⟩

/-- Python `str.splitlines()` for strings whose only line break is
`'\n'`: empty string gives `[]`, and a trailing newline contributes no
final empty line. -/
def pySplitlines (s : String) : List String :=
  if s.data.isEmpty then []
  else
    let parts := (s.data.splitOn '\n').map (fun l => (⟨l⟩ : String))
    if parts.getLast? = some "" then parts.dropLast else parts

/-- Python `str.strip()`: drop leading and trailing whitespace. -/
def pyStrip (s : String) : String :=
  ⟨((s.data.dropWhile Char.isWhitespace).reverse.dropWhile Char.isWhitespace).reverse⟩

/-- Python `str(value)` for a `Literal`'s stored value.  (A float is
shown as its rational value; no claim inspects those characters.) -/
def pyLitStr : PyLit → String
  | .int i => toString i
  | .float q => toString q
  | .str s => s

/-- `tree_line` (`src/trdr/dsl/dsl_ast.py`, lines 10-12). -/
def tree_line (label content : String) (indent : Nat) : String :=
  indentStr indent ++ label ++ ": " ++ content

/-- `format_child_lines` (`src/trdr/dsl/dsl_ast.py`, lines 15-30):
prefix the first line of `child_text` with the connector and indent the
subsequent lines three columns further. -/
def format_child_lines (child_text base_indent : String) (extra_space : Nat)
    (connector : String) : List String :=
  match pySplitlines child_text with
  | [] => []
  | first :: rest =>
    (base_indent ++ spaces extra_space ++ connector ++ " " ++ pyStrip first) ::
      rest.map (fun line => base_indent ++ spaces (extra_space + 3) ++ pyStrip line)

mutual

/-- `to_pretty_string` over the expression nodes
(`src/trdr/dsl/dsl_ast.py`): `Literal` (lines 53-54), `Identifier`
(lines 68-69), `BinaryExpression` (lines 101-126, with the one-line /
multi-line operand cases), `AllOf` (lines 193-201) and `AnyOf` (lines
213-221), whose numbered-children loop is `compositeChildren`. -/
def exprPretty : Expr → Nat → String
  | .literal v, indent => tree_line "Literal" (pyLitStr v) indent
  | .identifier name, indent => tree_line "Identifier" name indent
  | .binary l op r, indent =>
    let base := indentStr indent
    let left_lines := pySplitlines (exprPretty l (indent + 2))
    let right_lines := pySplitlines (exprPretty r (indent + 2))
    joinLines ([base ++ "BinaryExpression", base ++ "    ├─ operator: " ++ op] ++
      (if left_lines.length = 1 then
        [base ++ "    ├─ left: " ++ pyStrip (left_lines.headD "")]
       else
        (base ++ "    ├─ left:") ::
          left_lines.map (fun line => base ++ "        " ++ pyStrip line)) ++
      (if right_lines.length = 1 then
        [base ++ "    └─ right: " ++ pyStrip (right_lines.headD "")]
       else
        (base ++ "    └─ right:") ::
          right_lines.map (fun line => base ++ "        " ++ pyStrip line)))
  | .all_of cs, indent =>
    joinLines ((indentStr indent ++ "AllOf") :: compositeChildren cs indent (indentStr indent))
  | .any_of cs, indent =>
    joinLines ((indentStr indent ++ "AnyOf") :: compositeChildren cs indent (indentStr indent))

/-- The `enumerate` loop of `AllOf`/`AnyOf.to_pretty_string`: every
child rendered at `indent + 2` and connected with `├─`, the last with
`└─`. -/
def compositeChildren : List Expr → Nat → String → List String
  | [], _, _ => []
  | [c], indent, base => format_child_lines (exprPretty c (indent + 2)) base 4 "└─"
  | c :: c2 :: cs, indent, base =>
    format_child_lines (exprPretty c (indent + 2)) base 4 "├─" ++
      compositeChildren (c2 :: cs) indent base

end

/-- `SizingRule.to_pretty_string` (`src/trdr/dsl/dsl_ast.py`, lines
229-253): the `SizingRule` header, the condition (or `(none)`), and the
value, with the one-line / multi-line cases. -/
def sizingRulePretty (r : SizingRule) (indent : Nat) : String :=
  let base := indentStr indent
  let sub := indentStr (indent + 1)
  let condLines :=
    match r.condition with
    | some c =>
      let cond_lines := pySplitlines (exprPretty c 0)
      if cond_lines.length = 1 then
        [sub ++ "├─ condition: " ++ pyStrip (cond_lines.headD "")]
      else
        (sub ++ "├─ condition:") ::
          cond_lines.map (fun line => sub ++ "   " ++ pyStrip line)
    | none => [sub ++ "├─ condition: (none)"]
  let val_lines := pySplitlines (exprPretty r.value 0)
  let valLines :=
    if val_lines.length = 1 then
      [sub ++ "└─ value: " ++ pyStrip (val_lines.headD "")]
    else
      (sub ++ "└─ value:") :: val_lines.map (fun line => sub ++ "   " ++ pyStrip line)
  joinLines ((base ++ "SizingRule") :: condLines ++ valLines)

/-- The rule loop of `Sizing.to_pretty_string`
(`src/trdr/dsl/dsl_ast.py`, lines 268-276). -/
def sizingChildren : List SizingRule → Nat → String → List String
  | [], _, _ => []
  | [r], indent, base => format_child_lines (sizingRulePretty r (indent + 2)) base 4 "└─"
  | r :: r2 :: rs, indent, base =>
    format_child_lines (sizingRulePretty r (indent + 2)) base 4 "├─" ++
      sizingChildren (r2 :: rs) indent base

/-- `Sizing.to_pretty_string` (`src/trdr/dsl/dsl_ast.py`, lines
268-276): only the rendered rules, no header line. -/
def sizingPretty (sz : Sizing) (indent : Nat) : String :=
  joinLines (sizingChildren sz.rules indent (indentStr indent))

/-- `StrategyAST.to_pretty_string` (`src/trdr/dsl/dsl_ast.py`, lines
303-315): header `StrategyAST: <name>`, description, and the
entry/exit/sizing subtrees at `indent + 2`.  When any of `entry`,
`exit` or `sizing` is `None` the Python raises `AttributeError`
(`None.to_pretty_string`), modelled as `none`. -/
def StrategyAST.toPrettyStringOpt (ast : StrategyAST) (indent : Nat) : Option String :=
  match ast.entry, ast.exit, ast.sizing with
  | some e, some x, some sz =>
    let base := indentStr indent
    some (joinLines [
      base ++ "StrategyAST: " ++ ast.name,
      base ++ "├─ Description: " ++ ast.description,
      base ++ "├─ Entry:",
      exprPretty e (indent + 2),
      base ++ "├─ Exit:",
      exprPretty x (indent + 2),
      base ++ "└─ Sizing:",
      sizingPretty sz (indent + 2)])
  | _, _, _ => none

/-! ## The DSL lexer (module `trdr.dsl.lexer`)

`parser.py` and `dsl_loader.py` import `Lexer` and `TokenType` from
`trdr.dsl.lexer`, but the module's source file is not in the tree.  The
whole section is therefore modelled from the spec, §4.D: the token
kinds (above), and the indentation algorithm — a stack of indent widths
starting `[0]`; blank and `#` lines skipped; tabs expand to the next
multiple of 8; `n > top` pushes and emits INDENT; `n < top` pops and
emits one DEDENT per level, failing with an inconsistent-dedent error
when no level equals `n`; at end of input one DEDENT per remaining
level > 0, then EOF.  Identifiers match `[A-Za-z_][A-Za-z0-9_]*`,
numbers are digit runs (with dots, the parser re-validates), strings
are double-quoted, operators are `+ - * / < > ==`, and any other
character is a `LexError` (spec §7: "illegal character"). -/

/-- Modelled from the spec (§4.D, §7): the lexer's error kinds —
inconsistent dedent, illegal character, unterminated string.
`outOfFuel` is the embedding's fuel-exhaustion marker, unreachable when
the fuel exceeds the input length. -/
inductive LexError where
  | inconsistentDedent (line : Nat)
  | illegalCharacter (c : Char) (line : Nat)
  | unterminatedString (line : Nat)
  | outOfFuel
  deriving Repr, DecidableEq

/-- Space or tab. -/
def isSpaceTab (c : Char) : Bool := c = ' ' ∨ c = '\t'

/-- First character of an identifier: `[A-Za-z_]`. -/
def isIdentStart (c : Char) : Bool := c.isAlpha ∨ c = '_'

/-- Later characters of an identifier: `[A-Za-z0-9_]`. -/
def isIdentCh (c : Char) : Bool := c.isAlphanum ∨ c = '_'

/-- A single-character operator: `+ - * / < >`. -/
def isOpChar (c : Char) : Bool :=
  c = '+' ∨ c = '-' ∨ c = '*' ∨ c = '/' ∨ c = '<' ∨ c = '>'

/-- Take the longest prefix satisfying `p` (and the rest). -/
def spanP (p : Char → Bool) : List Char → List Char × List Char
  | [] => ([], [])
  | c :: cs =>
    if p c then (c :: (spanP p cs).1, (spanP p cs).2)
    else ([], c :: cs)

/-- Split off the first line: the characters before the first `'\n'`,
and the rest after it (`none` when there is no newline). -/
def breakLine : List Char → List Char × Option (List Char)
  | [] => ([], none)
  | c :: cs =>
    if c = '\n' then ([], some cs)
    else ((c :: (breakLine cs).1), (breakLine cs).2)

/-- Modelled from the spec (§4.D): count the leading-whitespace columns
of a line, tabs expanding to the next multiple of 8; returns the width
and the remaining characters. -/
def countIndent : List Char → Nat → Nat × List Char
  | [], n => (n, [])
  | c :: cs, n =>
    if c = ' ' then countIndent cs (n + 1)
    else if c = '\t' then countIndent cs (n + (8 - n % 8))
    else (n, c :: cs)

/-- The body of a double-quoted string: the characters before the
closing quote and the rest after it; `none` when the quote never
closes. -/
def scanStr : List Char → Option (List Char × List Char)
  | [] => none
  | c :: cs =>
    if c = '"' then some ([], cs)
    else
      match scanStr cs with
      | none => none
      | some (a, b) => some (c :: a, b)

/-- Modelled from the spec (§4.D): scan the tokens on one line (indent
already consumed).  Fuel-driven; `cs.length + 1` fuel always
suffices since every step consumes at least one character. -/
def scanTokens : Nat → List Char → Nat → Except LexError (List Token)
  | 0, _, _ => .error .outOfFuel
  | _ + 1, [], _ => .ok []
  | fuel + 1, c :: cs, ln =>
    if isSpaceTab c then scanTokens fuel cs ln
    else if isIdentStart c then
      match scanTokens fuel (spanP isIdentCh cs).2 ln with
      | .error e => .error e
      | .ok ts => .ok (⟨.IDENTIFIER, ⟨c :: (spanP isIdentCh cs).1⟩, ln⟩ :: ts)
    else if c.isDigit then
      match scanTokens fuel (spanP (fun ch => ch.isDigit ∨ ch = '.') cs).2 ln with
      | .error e => .error e
      | .ok ts => .ok (⟨.NUMBER, ⟨c :: (spanP (fun ch => ch.isDigit ∨ ch = '.') cs).1⟩, ln⟩ :: ts)
    else if c = '"' then
      match scanStr cs with
      | none => .error (.unterminatedString ln)
      | some (content, rest) =>
        match scanTokens fuel rest ln with
        | .error e => .error e
        | .ok ts => .ok (⟨.STRING, ⟨'"' :: (content ++ ['"'])⟩, ln⟩ :: ts)
    else if c = '(' then
      match scanTokens fuel cs ln with
      | .error e => .error e
      | .ok ts => .ok (⟨.LEFT_PAREN, "(", ln⟩ :: ts)
    else if c = ')' then
      match scanTokens fuel cs ln with
      | .error e => .error e
      | .ok ts => .ok (⟨.RIGHT_PAREN, ")", ln⟩ :: ts)
    else if c = '=' then
      match cs with
      | '=' :: rest =>
        match scanTokens fuel rest ln with
        | .error e => .error e
        | .ok ts => .ok (⟨.OPERATOR, "==", ln⟩ :: ts)
      | _ => .error (.illegalCharacter '=' ln)
    else if isOpChar c then
      match scanTokens fuel cs ln with
      | .error e => .error e
      | .ok ts => .ok (⟨.OPERATOR, ⟨[c]⟩, ln⟩ :: ts)
    else
      .error (.illegalCharacter c ln)

/-- Modelled from the spec (§4.D): pop stack levels while `n < top`,
one DEDENT per pop; if no level equals `n`, the dedent is
inconsistent. -/
def dedentPops : List Nat → Nat → Nat → Except LexError (List Nat × List Token)
  | [], _, ln => .error (.inconsistentDedent ln)
  | t :: rest, n, ln =>
    if n = t then .ok (t :: rest, [])
    else if n < t then
      match dedentPops rest n ln with
      | .error e => .error e
      | .ok (st, toks) => .ok (st, ⟨.DEDENT, "", ln⟩ :: toks)
    else .error (.inconsistentDedent ln)

/-- Modelled from the spec (§4.D): adjust the indent stack for a line of
indent `n`, emitting INDENT/DEDENT tokens. -/
def adjustStack (stack : List Nat) (n ln : Nat) : Except LexError (List Nat × List Token) :=
  match stack with
  | [] => .error (.inconsistentDedent ln)
  | t :: rest =>
    if n > t then .ok (n :: t :: rest, [⟨.INDENT, "", ln⟩])
    else dedentPops (t :: rest) n ln

/-- Modelled from the spec (§4.D): at end of input, one DEDENT per
remaining level `> 0`, then EOF. -/
def endTokens (stack : List Nat) (ln : Nat) : List Token :=
  (stack.filter (fun n => n > 0)).map (fun _ => (⟨.DEDENT, "", ln⟩ : Token)) ++
    [⟨.EOF, "", ln⟩]

/-- Modelled from the spec (§4.D): process the input line by line —
skip blank and comment lines, adjust the indent stack, scan the line's
tokens — and emit the closing DEDENTs and EOF after the last line. -/
def lexLines : Nat → List Char → List Nat → Nat → Except LexError (List Token)
  | 0, _, _, _ => .error .outOfFuel
  | fuel + 1, cs, stack, ln =>
    let line := (breakLine cs).1
    let rest := (breakLine cs).2
    let n := (countIndent line 0).1
    let content := (countIndent line 0).2
    if content.isEmpty ∨ content.head? = some '#' then
      match rest with
      | some r => lexLines fuel r stack (ln + 1)
      | none => .ok (endTokens stack ln)
    else
      match adjustStack stack n ln with
      | .error e => .error e
      | .ok (stack', toks) =>
        match scanTokens (content.length + 1) content ln with
        | .error e => .error e
        | .ok ltoks =>
          match rest with
          | some r =>
            match lexLines fuel r stack' (ln + 1) with
            | .error e => .error e
            | .ok ts => .ok (toks ++ ltoks ++ ts)
          | none => .ok (toks ++ ltoks ++ endTokens stack' ln)

/-- Modelled from the spec (§4.D): `Lexer(text).tokenize()`. -/
def tokenize (text : String) : Except LexError (List Token) :=
  lexLines (text.data.length + 1) text.data [0] 1

/-- Example data: the token stream of a minimal full strategy (name,
entry, exit, sizing), used for the round-trip analysis. -/
def roundtripTokensExample : List Token :=
  [⟨.IDENTIFIER, "STRATEGY", 1⟩, ⟨.INDENT, "", 2⟩,
   ⟨.IDENTIFIER, "NAME", 2⟩, ⟨.STRING, "\"x\"", 2⟩,
   ⟨.IDENTIFIER, "ENTRY", 3⟩, ⟨.INDENT, "", 4⟩,
   ⟨.IDENTIFIER, "ALL_OF", 4⟩, ⟨.INDENT, "", 5⟩,
   ⟨.IDENTIFIER, "MA5", 5⟩, ⟨.DEDENT, "", 6⟩, ⟨.DEDENT, "", 6⟩,
   ⟨.IDENTIFIER, "EXIT", 6⟩, ⟨.INDENT, "", 7⟩,
   ⟨.IDENTIFIER, "ANY_OF", 7⟩, ⟨.INDENT, "", 8⟩,
   ⟨.IDENTIFIER, "MA5", 8⟩, ⟨.DEDENT, "", 9⟩, ⟨.DEDENT, "", 9⟩,
   ⟨.IDENTIFIER, "SIZING", 9⟩, ⟨.INDENT, "", 10⟩,
   ⟨.IDENTIFIER, "RULE", 10⟩, ⟨.INDENT, "", 11⟩,
   ⟨.IDENTIFIER, "DOLLAR_AMOUNT", 11⟩, ⟨.INDENT, "", 12⟩,
   ⟨.IDENTIFIER, "AVAILABLE_CASH", 12⟩, ⟨.DEDENT, "", 13⟩,
   ⟨.DEDENT, "", 13⟩, ⟨.DEDENT, "", 13⟩, ⟨.DEDENT, "", 13⟩, ⟨.EOF, "", 13⟩]

/-- Example data: the AST that `roundtripTokensExample` parses to. -/
def roundtripAstExample : StrategyAST :=
  { name := "x", description := "",
    entry := some (.all_of [.identifier "MA5"]),
    exit := some (.any_of [.identifier "MA5"]),
    sizing := some ⟨[⟨none, .identifier "AVAILABLE_CASH"⟩]⟩ }

end Trdr

namespace Trdr

/-- **C1.** For every `PDTContext` with `side = BUY`,
`positions_opened_today = k` and `rolling_day_trade_count = d`, the Nun
policy's `evaluate_order` returns a decision with `allowed = true` if and
only if `k < 3 - d`. -/
theorem nun_buy_allowed_iff (context : PDTContext) (hside : context.side = .BUY) :
    (NunStrategy.evaluate_order context).allowed = true ↔
      context.positions_opened_today < 3 - context.rolling_day_trade_count := by
  unfold NunStrategy.evaluate_order
  rw [hside]
  by_cases h : context.positions_opened_today < 3 - context.rolling_day_trade_count <;>
    simp [h]

/-- Witness for C1: the scenario of spec §8 item 4 (`d = 1`, `k = 1`)
is admissible. -/
theorem nun_buy_allowed_iff_witness :
    ({ symbol := "AAPL", side := .BUY, positions_opened_today := 1,
       rolling_day_trade_count := 1 } : PDTContext).side = OrderSide.BUY ∧
    ((NunStrategy.evaluate_order
        { symbol := "AAPL", side := .BUY, positions_opened_today := 1,
          rolling_day_trade_count := 1 }).allowed = true ↔
      (1 : Int) < 3 - 1) :=
  ⟨rfl, nun_buy_allowed_iff
    { symbol := "AAPL", side := .BUY, positions_opened_today := 1,
      rolling_day_trade_count := 1 } rfl⟩

/-- **C2 (counterexample).**  With a position opened today and
`rolling_day_trade_count = 3`, the Nun policy's SELL branch does *not*
fail with `PDTStrategyError`: `evaluate_order` returns an ordinary
not-admissible `PDTDecision`, and the broker's `_validate_pre_order`
surfaces it as a `PDTRuleViolation`. -/
theorem nun_sell_exhausted_is_ordinary_denial :
    NunStrategy.evaluate_order
        { symbol := "TSLA", side := .SELL, rolling_day_trade_count := 3,
          position_opened_today := true } =
      { allowed := false,
        reason := some "PDT restrictions prevent closing this position: no day trades available" } ∧
    BaseBroker._validate_pre_order NunStrategy.evaluate_order (fun _ => true)
        { day_trade_count := some 3,
          positions := some [("TSLA", { symbol := "TSLA", orders := [] })],
          updated_dt := some ⟨0⟩, is_stale_flag := false }
        "TSLA" .SELL { amount := 1000 } =
      .error (.pdtRuleViolation
        "PDT restrictions prevent closing this position: no day trades available") := by
  constructor <;> rfl

/-- **C2 (amended).** For every `PDTContext` with `side = SELL` and
`position_opened_today = true`, the Nun policy admits the order iff
`rolling_day_trade_count < 3`; when this branch is reached with
`rolling_day_trade_count ≥ 3` it returns an ordinary not-admissible
decision (not a `PDTStrategyError`), which `_validate_pre_order`
surfaces as a `PDTRuleViolation` with the decision's reason. -/
theorem nun_sell_opened_today (context : PDTContext)
    (hside : context.side = .SELL) (hopen : context.position_opened_today = true) :
    ((NunStrategy.evaluate_order context).allowed = true ↔
        context.rolling_day_trade_count < 3) ∧
    (3 ≤ context.rolling_day_trade_count →
      NunStrategy.evaluate_order context =
        { allowed := false,
          reason := some "PDT restrictions prevent closing this position: no day trades available" }) ∧
    (∀ (st : BrokerState) (openedToday : String → Bool) (amount : Money)
        (d : Int) (ps : List (String × Position)) (kv : String × Position),
      st.day_trade_count = some d → 3 ≤ d →
      st.positions = some ps →
      ps.find? (fun kv => kv.1 = context.symbol) = some kv →
      openedToday context.symbol = true →
      BaseBroker._validate_pre_order NunStrategy.evaluate_order openedToday st
          context.symbol .SELL amount =
        .error (.pdtRuleViolation
          "PDT restrictions prevent closing this position: no day trades available")) := by
  refine ⟨?_, ?_, ?_⟩
  · unfold NunStrategy.evaluate_order
    rw [hside, hopen]
    by_cases h : context.rolling_day_trade_count < 3 <;> simp [h]
  · intro h3
    unfold NunStrategy.evaluate_order
    rw [hside, hopen]
    simp [not_lt.mpr h3]
  · intro st openedToday amount d ps kv hd h3 hps hfind hopen'
    simp [BaseBroker._validate_pre_order, hd, hps, hfind, NunStrategy.evaluate_order,
      hopen', not_lt.mpr h3]

/-- Witness for C2 (amended): concrete SELL context with two day trades
used — the order is admissible — instantiated through the theorem. -/
theorem nun_sell_opened_today_witness :
    ({ symbol := "TSLA", side := .SELL, rolling_day_trade_count := 2,
       position_opened_today := true } : PDTContext).side = OrderSide.SELL ∧
    ({ symbol := "TSLA", side := .SELL, rolling_day_trade_count := 2,
       position_opened_today := true } : PDTContext).position_opened_today = true ∧
    ((NunStrategy.evaluate_order
        { symbol := "TSLA", side := .SELL, rolling_day_trade_count := 2,
          position_opened_today := true }).allowed = true ↔ (2 : Int) < 3) :=
  ⟨rfl, rfl,
    (nun_sell_opened_today
      { symbol := "TSLA", side := .SELL, rolling_day_trade_count := 2,
        position_opened_today := true } rfl rfl).1⟩

/-- **C10.** For every `Position` whose orders all carry a fill price:
an order-less position has `average_cost = Money(0)`; a position with
orders but derived `size = 0` (e.g. fully closed, equal filled BUY and
SELL quantities) makes `average_cost` divide by zero; and whenever
`size ≠ 0` the accessor is well-defined. -/
theorem position_average_cost_div_by_zero (p : Position)
    (hfill : ∀ o ∈ p.orders, o.avg_fill_price.isSome) :
    (p.orders = [] → p.average_cost = .ok { amount := 0 }) ∧
    (p.orders ≠ [] → p.size = 0 → p.average_cost = .error .divisionByZero) ∧
    (p.size ≠ 0 → ∃ m, p.average_cost = .ok m) := by
  have hsum : ∀ (l : List Order), (∀ o ∈ l, o.avg_fill_price.isSome) →
      ∀ acc, ∃ s, Position.costSum acc l = .ok s := by
    intro l hl
    induction l with
    | nil => exact fun acc => ⟨acc, rfl⟩
    | cons o os ih =>
      intro acc
      have ho := hl o (List.mem_cons_self o os)
      obtain ⟨m, hm⟩ := Option.isSome_iff_exists.mp ho
      have ih' := ih (fun o' ho' => hl o' (List.mem_cons_of_mem o ho'))
      obtain ⟨s, hs⟩ := ih' (acc + o.net_quantity * m.amount)
      exact ⟨s, by simp [Position.costSum, hm, hs]⟩
  refine ⟨?_, ?_, ?_⟩
  · intro hnil
    unfold Position.average_cost
    simp [hnil]
  · intro hne hz
    obtain ⟨s, hs⟩ := hsum p.orders hfill 0
    have hlen : ¬ p.orders.length = 0 := by simpa [List.length_eq_zero] using hne
    simp [Position.average_cost, hlen, hs, hz]
  · intro hz
    have hne : p.orders ≠ [] := by
      intro hnil
      exact hz (by simp [Position.size, hnil])
    obtain ⟨s, hs⟩ := hsum p.orders hfill 0
    have hlen : ¬ p.orders.length = 0 := by simpa [List.length_eq_zero] using hne
    exact ⟨{ amount := s / p.size }, by simp [Position.average_cost, hlen, hs, hz]⟩

/-- Witness for C10: `closedPositionExample` (a filled BUY of 10 at 100
and a filled SELL of 10 at 110) has all fill prices set, nonempty orders,
derived size 0, and `average_cost` raising division-by-zero. -/
theorem position_average_cost_div_by_zero_witness :
    (∀ o ∈ closedPositionExample.orders, o.avg_fill_price.isSome) ∧
    (closedPositionExample.orders ≠ [] ∧ closedPositionExample.size = 0) ∧
    closedPositionExample.average_cost = .error .divisionByZero :=
  have hsize : closedPositionExample.size = 0 := by
    simp [closedPositionExample, Position.size, Order.net_quantity]
  ⟨by decide, ⟨by decide, hsize⟩,
    (position_average_cost_div_by_zero closedPositionExample (by decide)).2.1
      (by decide) hsize⟩

/-- Helper: for every non-intraday period, `compute_moving_average`
returns a value (either a mean or "missing"), never an error. -/
theorem Security.compute_moving_average_ok_of_ne_m15 (s : Security)
    (period : Timeframe) (offset : Nat) (hp : period ≠ .m15) :
    ∃ o, s.compute_moving_average period offset = .ok o := by
  have hdays : period.to_days ≠ 0 := by
    cases period <;> simp_all [Timeframe.to_days, Timeframe.value]
  unfold Security.compute_moving_average
  by_cases hlen : (s.relevant_bars offset).length < period.to_days
  · exact ⟨none, by simp [hlen]⟩
  · refine ⟨some { amount := ((pySliceLast (s.relevant_bars offset) period.to_days).map
        (fun b => b.close.amount)).sum / (period.to_days : Dec) }, ?_⟩
    simp [hlen, hdays]

/-- **C7.** The indicator computations reject the intraday timeframe
`m15`: with `to_days() = 0` the missing-data guard cannot fire and both
`compute_moving_average` and `compute_average_volume` fail with a
division by zero, never returning a numeric result; whereas for any
daily period, fewer available bars than `period.to_days()` gives the
"missing" result `None` rather than a failure. -/
theorem indicator_period_guards (s : Security) (offset : Nat) (period : Timeframe) :
    (s.compute_moving_average .m15 offset = .error .divisionByZero ∧
     s.compute_average_volume .m15 offset = .error .divisionByZero) ∧
    (period ≠ .m15 → (s.relevant_bars offset).length < period.to_days →
      s.compute_moving_average period offset = .ok none ∧
      s.compute_average_volume period offset = .ok none) := by
  constructor
  · constructor <;>
      simp [Security.compute_moving_average, Security.compute_average_volume,
        Timeframe.to_days, Timeframe.value]
  · intro hp hlen
    constructor <;>
      simp [Security.compute_moving_average, Security.compute_average_volume, hlen]

/-- Witness for C7: a security with 30 bars — `m15` fails on both
indicators, and `d50` (which needs 50 bars) yields "missing". -/
theorem indicator_period_guards_witness :
    ((thirtyBarSecurityExample.relevant_bars 0).length < Timeframe.d50.to_days ∧
      Timeframe.d50 ≠ Timeframe.m15) ∧
    (thirtyBarSecurityExample.compute_moving_average .m15 0 = .error .divisionByZero ∧
     thirtyBarSecurityExample.compute_average_volume .m15 0 = .error .divisionByZero) ∧
    (thirtyBarSecurityExample.compute_moving_average .d50 0 = .ok none ∧
     thirtyBarSecurityExample.compute_average_volume .d50 0 = .ok none) :=
  ⟨⟨by decide, by decide⟩,
    (indicator_period_guards thirtyBarSecurityExample 0 .d50).1,
    (indicator_period_guards thirtyBarSecurityExample 0 .d50).2 (by decide) (by decide)⟩

/-- **C5.** For every security and non-intraday periods `short` and
`long`: the bullish-crossover query never fails; it returns `true` iff
all four required moving averages are available, yesterday's short MA is
strictly below the long MA, and today's short MA is strictly above the
long MA; and if any of the four moving averages is missing it returns
`false`. -/
theorem bullish_crossover_iff (s : Security) (short_period long_period : Timeframe)
    (hs : short_period ≠ .m15) (hl : long_period ≠ .m15) :
    (∃ b, s.has_bullish_moving_average_crossover short_period long_period = .ok b) ∧
    (s.has_bullish_moving_average_crossover short_period long_period = .ok true ↔
      ∃ st lt sy ly,
        s.compute_moving_average short_period 0 = .ok (some st) ∧
        s.compute_moving_average long_period 0 = .ok (some lt) ∧
        s.compute_moving_average short_period 1 = .ok (some sy) ∧
        s.compute_moving_average long_period 1 = .ok (some ly) ∧
        sy.amount < ly.amount ∧ st.amount > lt.amount) ∧
    ((s.compute_moving_average short_period 0 = .ok none ∨
      s.compute_moving_average long_period 0 = .ok none ∨
      s.compute_moving_average short_period 1 = .ok none ∨
      s.compute_moving_average long_period 1 = .ok none) →
      s.has_bullish_moving_average_crossover short_period long_period = .ok false) := by
  obtain ⟨o1, h1⟩ := Security.compute_moving_average_ok_of_ne_m15 s short_period 0 hs
  obtain ⟨o2, h2⟩ := Security.compute_moving_average_ok_of_ne_m15 s long_period 0 hl
  obtain ⟨o3, h3⟩ := Security.compute_moving_average_ok_of_ne_m15 s short_period 1 hs
  obtain ⟨o4, h4⟩ := Security.compute_moving_average_ok_of_ne_m15 s long_period 1 hl
  unfold Security.has_bullish_moving_average_crossover
  rw [h1, h2, h3, h4]
  cases o1 <;> cases o2 <;> cases o3 <;> cases o4 <;>
    simp [h1, h2, h3, h4, and_assoc]

/-- Helper: one comprehension step equals call-then-await of the
child. -/
theorem awaitList_cons (ctx : TradingContext) (c : Expr) (cs : List Expr) :
    awaitList ctx (c :: cs) =
      (match awaitEval ctx c with
      | .error e => .error e
      | .ok v =>
        match awaitList ctx cs with
        | .error e => .error e
        | .ok vs => .ok (v :: vs)) := by
  unfold awaitEval
  cases h : callEvaluate ctx c with
  | error e => simp [awaitList, h]
  | ok cr => cases h2 : awaitOn cr <;> simp [awaitList, h, h2]

/-- Helper: the collected `AllOf` child results are `.ok` with all
values truthy exactly when every child's awaited evaluation yields a
truthy value. -/
theorem awaitList_all_truthy_iff (ctx : TradingContext) :
    ∀ cs : List Expr,
      (∃ vs, awaitList ctx cs = .ok vs ∧ vs.all Val.truthy = true) ↔
        ∀ c ∈ cs, ∃ v, awaitEval ctx c = .ok v ∧ v.truthy = true := by
  intro cs
  induction cs with
  | nil => simp [awaitList]
  | cons c cs ih =>
    cases h1 : awaitEval ctx c with
    | error e =>
      simp only [awaitList_cons, h1]
      simp [h1]
    | ok v =>
      cases h2 : awaitList ctx cs with
      | error e2 =>
        rw [h2] at ih
        simp only [awaitList_cons, h1, h2]
        simp at ih ⊢
        exact fun x hx htr => ih
      | ok vs =>
        rw [h2] at ih
        simp only [awaitList_cons, h1, h2, Except.ok.injEq, exists_eq_left'] at ih ⊢
        rw [List.all_cons, Bool.and_eq_true, List.forall_mem_cons, ih, h1]
        simp [exists_eq_left']

/-- Helper: when every child of an `AllOf` awaits without raising, the
comprehension performs the call-and-await step on every one of them. -/
theorem allOfCalls_length_eq (ctx : TradingContext) :
    ∀ cs : List Expr, (∀ c ∈ cs, ∃ v, awaitEval ctx c = .ok v) →
      (allOfCalls ctx cs).length = cs.length := by
  intro cs
  induction cs with
  | nil => intro _; rfl
  | cons c cs ih =>
    intro h
    obtain ⟨v, hv⟩ := h c (List.mem_cons_self c cs)
    simp only [allOfCalls, hv, List.length_cons]
    rw [ih fun c' hc' => h c' (List.mem_cons_of_mem c hc')]

/-- **C3 (counterexample).**  An `AllOf` whose first child — the
all-async comparison `A > B`, which awaits to false — still evaluates
its second child `A < B`: the comprehension's call-and-await list has
both entries, so evaluation is *not* short-circuit. -/
theorem all_of_evaluates_child_after_false :
    allOfCalls abContextExample [falseCompareExample, trueCompareExample] =
      [.ok (.bool false), .ok (.bool true)] ∧
    awaitEval abContextExample falseCompareExample = .ok (.bool false) ∧
    awaitEval abContextExample (.all_of [falseCompareExample, trueCompareExample]) =
      .ok (.bool false) :=
  ⟨rfl, rfl, rfl⟩

/-- **C3 (amended).** For every `AllOf` node with children `c₁..cₙ` and
every context, the awaited evaluation returns true iff every child's
awaited evaluation yields a truthy value (a child with a synchronous
`evaluate` — a bare literal or an `AnyOf` — makes the comprehension's
`await` raise `TypeError` and so never counts as true); and evaluation
is *not* short-circuit: the children are awaited in order and — as long
as no await raises — every child is evaluated, even after some child
evaluates to false (only an exception stops the traversal). -/
theorem all_of_conjunction_not_short_circuit (ctx : TradingContext) (cs : List Expr) :
    (awaitEval ctx (.all_of cs) = .ok (.bool true) ↔
      ∀ c ∈ cs, ∃ v, awaitEval ctx c = .ok v ∧ v.truthy = true) ∧
    ((∀ c ∈ cs, ∃ v, awaitEval ctx c = .ok v) →
      (allOfCalls ctx cs).length = cs.length) := by
  refine ⟨?_, allOfCalls_length_eq ctx cs⟩
  rw [← awaitList_all_truthy_iff ctx cs]
  simp only [awaitEval, callEvaluate, awaitOn]
  cases h : awaitList ctx cs with
  | error e => simp [h]
  | ok vs => simp [h]

/-- Witness for C3 (amended): the two-child `AllOf` from the
counterexample — both children await successfully, conjunction
semantics hold, and both are evaluated. -/
theorem all_of_conjunction_not_short_circuit_witness :
    (awaitEval abContextExample (.all_of [falseCompareExample, trueCompareExample]) =
        .ok (.bool true) ↔
      ∀ c ∈ [falseCompareExample, trueCompareExample],
        ∃ v, awaitEval abContextExample c = .ok v ∧ v.truthy = true) ∧
    (allOfCalls abContextExample [falseCompareExample, trueCompareExample]).length =
      [falseCompareExample, trueCompareExample].length :=
  ⟨(all_of_conjunction_not_short_circuit abContextExample
      [falseCompareExample, trueCompareExample]).1,
   (all_of_conjunction_not_short_circuit abContextExample
      [falseCompareExample, trueCompareExample]).2
      (by
        intro c hc
        rcases List.mem_cons.mp hc with h | h
        · exact ⟨.bool false, by rw [h]; rfl⟩
        · rcases List.mem_cons.mp h with h' | h'
          · exact ⟨.bool true, by rw [h']; rfl⟩
          · cases h')⟩

/-- **C4 (counterexample).**  A token stream whose ENTRY contains
`CURRENT_PRICE CROSSED_ABOVE MA20` — a crossover whose left operand is
not a moving-average identifier — parses *successfully* (into a
`BinaryExpression` with operator `CROSSED_ABOVE`); no `ParseError` is
raised.  The illegal crossover is only rejected at evaluation time —
here, with both operands async identifiers, at the operator dispatch as
an unsupported-operator error. -/
theorem illegal_crossover_parses_successfully :
    Parser.parse_strategy crossoverTokensExample 50 0 =
      .ok ({ name := "", description := "",
             entry := some (.all_of [.binary (.identifier "CURRENT_PRICE") "CROSSED_ABOVE"
               (.identifier "MA20")]),
             exit := none, sizing := none }, 12) ∧
    awaitEval priceContextExample
        (.binary (.identifier "CURRENT_PRICE") "CROSSED_ABOVE" (.identifier "MA20")) =
      .error (.unsupportedOperator "CROSSED_ABOVE") :=
  ⟨rfl, rfl⟩

/-- **C4 (amended).** `parse_comparison` performs no operand check on
`CROSSED_ABOVE`/`CROSSED_BELOW`: for *every* operand — any identifier
(moving-average or not) and even a numeric literal — the comparison
parses into a `BinaryExpression` with the crossover operator (the
parser never builds the `CrossoverExpression` node whose evaluation
would check the moving-average identifiers).  The rejection happens
only at evaluation time, where awaiting such a node always fails: with
`TypeError` when an operand is a synchronous node (e.g. a numeric
literal, whose `evaluate` returns a plain `Decimal` that the `await`
rejects), and otherwise — both operands awaited successfully — with
`ValueError("Unsupported operator ...")` at the operator dispatch; it
never yields a value. -/
theorem crossover_not_checked_at_parse_time (name : String) (ln : Nat) :
    Parser.parse_comparison
        [⟨.IDENTIFIER, name, ln⟩, ⟨.IDENTIFIER, "CROSSED_ABOVE", ln⟩, ⟨.NUMBER, "5", ln⟩]
        10 0 =
      .ok (.binary (.identifier name) "CROSSED_ABOVE" (.literal (.int 5)), 3) ∧
    Parser.parse_comparison
        [⟨.NUMBER, "5", ln⟩, ⟨.IDENTIFIER, "CROSSED_BELOW", ln⟩, ⟨.IDENTIFIER, name, ln⟩]
        10 0 =
      .ok (.binary (.literal (.int 5)) "CROSSED_BELOW" (.identifier name), 3) ∧
    (∀ (ctx : TradingContext) (op : String) (l r : Expr),
      op = "CROSSED_ABOVE" ∨ op = "CROSSED_BELOW" →
      ∃ e, awaitEval ctx (.binary l op r) = .error e) ∧
    (∀ (ctx : TradingContext) (op : String) (r : Expr),
      awaitEval ctx (.binary (.literal (.int 5)) op r) = .error .typeError) ∧
    (∀ (ctx : TradingContext) (op lname rname : String) (lv rv : Dec),
      op = "CROSSED_ABOVE" ∨ op = "CROSSED_BELOW" →
      ctx.values lname = some lv → ctx.values rname = some rv →
      awaitEval ctx (.binary (.identifier lname) op (.identifier rname)) =
        .error (.unsupportedOperator op)) := by
  have hbo : ∀ (op : String), op = "CROSSED_ABOVE" ∨ op = "CROSSED_BELOW" →
      ∀ lv rv, binaryOp lv op rv = .error (.unsupportedOperator op) := by
    intro op hop lv rv
    rcases hop with h | h <;> subst h <;> simp [binaryOp]
  refine ⟨rfl, rfl, ?_, ?_, ?_⟩
  · intro ctx op l r hop
    simp only [awaitEval, callEvaluate, awaitOn]
    cases h1 : callEvaluate ctx l with
    | error e => exact ⟨e, by simp [h1]⟩
    | ok lc =>
      cases lc with
      | value v => exact ⟨.typeError, by simp [h1, awaitOn]⟩
      | coroutine lres =>
        cases lres with
        | error e => exact ⟨e, by simp [h1, awaitOn]⟩
        | ok lv =>
          cases h2 : callEvaluate ctx r with
          | error e => exact ⟨e, by simp [h1, h2, awaitOn]⟩
          | ok rc =>
            cases rc with
            | value v => exact ⟨.typeError, by simp [h1, h2, awaitOn]⟩
            | coroutine rres =>
              cases rres with
              | error e => exact ⟨e, by simp [h1, h2, awaitOn]⟩
              | ok rv =>
                exact ⟨.unsupportedOperator op, by simp [h1, h2, awaitOn, hbo op hop]⟩
  · intro ctx op r
    simp [awaitEval, callEvaluate, awaitOn]
  · intro ctx op lname rname lv rv hop hl hr
    simp only [awaitEval, callEvaluate, awaitOn,
      TradingContext.get_value_for_identifier, hl, hr]
    exact hbo op hop (.num lv) (.num rv)

/-- Witness for C4 (amended): the counterexample's operand
`CURRENT_PRICE` instantiates the theorem; the evaluation conjuncts are
applied with the crossover operator discharged, showing the awaited
evaluation erroring. -/
theorem crossover_not_checked_at_parse_time_witness :
    Parser.parse_comparison
        [⟨.IDENTIFIER, "CURRENT_PRICE", 4⟩, ⟨.IDENTIFIER, "CROSSED_ABOVE", 4⟩,
         ⟨.NUMBER, "5", 4⟩] 10 0 =
      .ok (.binary (.identifier "CURRENT_PRICE") "CROSSED_ABOVE" (.literal (.int 5)), 3) ∧
    (∃ e, awaitEval priceContextExample
        (.binary (.identifier "CURRENT_PRICE") "CROSSED_ABOVE" (.identifier "MA20")) =
      .error e) ∧
    awaitEval priceContextExample
        (.binary (.identifier "CURRENT_PRICE") "CROSSED_ABOVE" (.identifier "MA20")) =
      .error (.unsupportedOperator "CROSSED_ABOVE") :=
  ⟨(crossover_not_checked_at_parse_time "CURRENT_PRICE" 4).1,
   (crossover_not_checked_at_parse_time "CURRENT_PRICE" 4).2.2.1 priceContextExample
      "CROSSED_ABOVE" (.identifier "CURRENT_PRICE") (.identifier "MA20") (Or.inl rfl),
   (crossover_not_checked_at_parse_time "CURRENT_PRICE" 4).2.2.2.2 priceContextExample
      "CROSSED_ABOVE" "CURRENT_PRICE" "MA20" 150 100 (Or.inl rfl) rfl rfl⟩

/-- **C6 (counterexample).**  A sizing rule whose condition is the
async comparison `A > B` — false when awaited (`A = 1 < B = 2`) — is
*still selected*: the synchronous `Sizing.evaluate` never awaits the
condition, and the coroutine object returned by the call is truthy.
The source returns the first rule's value 999 where the claim's
first-matching-by-condition-value semantics would return the second
rule's 2000. -/
theorem sizing_selects_rule_with_false_async_condition :
    awaitEval abContextExample falseCompareExample = .ok (.bool false) ∧
    asyncCondRuleExample.condition = some falseCompareExample ∧
    evalSizing abContextExample [asyncCondRuleExample, conditionlessRuleExample] =
      .ok (.value (.num 999)) :=
  ⟨rfl, rfl, rfl⟩

/-- **C6 (amended).** `Sizing.evaluate` walks the rules in declaration
order, testing the *unawaited* call of each condition for truthiness
(the method is synchronous and never awaits): if the rules split as
`pre ++ r :: post` where every rule of `pre` has a condition whose call
yields a falsy value and `r`'s condition is absent or its call is
truthy, the result is the unawaited call of `r`'s value expression; when
every rule's condition call is falsy, it fails with the no-rule-matched
`SizingError`.  Because calling an *async* condition (an identifier, a
comparison, an `all_of`) returns a coroutine object — always truthy —
such a rule always matches, regardless of its condition's value; only
synchronous conditions (bare literals, `any_of`) are tested by
value. -/
theorem sizing_first_match (ctx : TradingContext)
    (pre post : List SizingRule) (r : SizingRule)
    (hpre : ∀ r' ∈ pre, ∃ c cr, r'.condition = some c ∧
      callEvaluate ctx c = .ok cr ∧ callTruthy cr = false)
    (hr : r.condition = none ∨ ∃ c cr, r.condition = some c ∧
      callEvaluate ctx c = .ok cr ∧ callTruthy cr = true) :
    evalSizing ctx (pre ++ r :: post) = callEvaluate ctx r.value ∧
    (∀ rules : List SizingRule,
      (∀ r' ∈ rules, ∃ c cr, r'.condition = some c ∧
        callEvaluate ctx c = .ok cr ∧ callTruthy cr = false) →
      evalSizing ctx rules = .error (.sizingError "No sizing rule matched the context.")) ∧
    (∀ c : Expr, c.isAsyncNode = true →
      ∃ res, callEvaluate ctx c = .ok (.coroutine res)) := by
  refine ⟨?_, ?_, ?_⟩
  · induction pre with
    | nil =>
      rcases hr with hnone | ⟨c, cr, hc, hcall, ht⟩
      · simp [evalSizing, hnone]
      · simp [evalSizing, hc, hcall, ht]
    | cons r' pre' ih =>
      obtain ⟨c, cr, hc, hcall, ht⟩ := hpre r' (List.mem_cons_self r' pre')
      simp only [List.cons_append, evalSizing, hc, hcall, ht]
      exact ih fun q hq => hpre q (List.mem_cons_of_mem r' hq)
  · intro rules hall
    induction rules with
    | nil => rfl
    | cons r' rules' ih =>
      obtain ⟨c, cr, hc, hcall, ht⟩ := hall r' (List.mem_cons_self r' rules')
      simp only [evalSizing, hc, hcall, ht]
      exact ih fun q hq => hall q (List.mem_cons_of_mem r' hq)
  · intro c hc
    cases c <;> simp [Expr.isAsyncNode] at hc <;> exact ⟨_, rfl⟩

/-- Witness for C6 (amended): with `AVAILABLE_CASH = 20000` and the
rule list "skipped (synchronous literal `0` condition, falsy) /
matched (`any_of(AVAILABLE_CASH > 10000)`, a synchronous call yielding
`True`) / conditionless fallback", evaluation returns the call of the
matched rule's value, the literal 2000. -/
theorem sizing_first_match_witness :
    evalSizing cashContextExample
        [skippedRuleExample, matchedRuleExample, fallbackRuleExample] =
      callEvaluate cashContextExample matchedRuleExample.value ∧
    callEvaluate cashContextExample matchedRuleExample.value = .ok (.value (.num 2000)) :=
  ⟨(sizing_first_match cashContextExample [skippedRuleExample] [fallbackRuleExample]
      matchedRuleExample
      (by
        intro r' hr'
        rcases List.mem_cons.mp hr' with h | h
        · exact ⟨.literal (.int 0), .value (.num 0), by rw [h]; rfl, rfl, rfl⟩
        · cases h)
      (Or.inr ⟨_, .value (.bool true), rfl, rfl, rfl⟩)).1,
   rfl⟩

/-- Witness for C5: the crossover security (closes `[2,2,2,2,1,10]`),
with `short = d1`, `long = d5`, instantiated through the theorem. -/
theorem bullish_crossover_iff_witness :
    Timeframe.d1 ≠ Timeframe.m15 ∧ Timeframe.d5 ≠ Timeframe.m15 ∧
    ((∃ b, crossoverSecurityExample.has_bullish_moving_average_crossover .d1 .d5 = .ok b) ∧
     (crossoverSecurityExample.has_bullish_moving_average_crossover .d1 .d5 = .ok true ↔
       ∃ st lt sy ly,
         crossoverSecurityExample.compute_moving_average .d1 0 = .ok (some st) ∧
         crossoverSecurityExample.compute_moving_average .d5 0 = .ok (some lt) ∧
         crossoverSecurityExample.compute_moving_average .d1 1 = .ok (some sy) ∧
         crossoverSecurityExample.compute_moving_average .d5 1 = .ok (some ly) ∧
         sy.amount < ly.amount ∧ st.amount > lt.amount) ∧
     ((crossoverSecurityExample.compute_moving_average .d1 0 = .ok none ∨
       crossoverSecurityExample.compute_moving_average .d5 0 = .ok none ∨
       crossoverSecurityExample.compute_moving_average .d1 1 = .ok none ∨
       crossoverSecurityExample.compute_moving_average .d5 1 = .ok none) →
       crossoverSecurityExample.has_bullish_moving_average_crossover .d1 .d5 = .ok false)) :=
  ⟨by decide, by decide,
    bullish_crossover_iff crossoverSecurityExample .d1 .d5 (by decide) (by decide)⟩

/-- Helper: any text whose first line begins `StrategyAST: ` fails to
lex — the scanner reads the identifier `StrategyAST` and then hits the
character `':'`, which is not in the DSL's alphabet. -/
theorem lexLines_strategyast_prefix (k : Nat) (u : List Char) :
    lexLines (k + 1)
      ('S' :: 't' :: 'r' :: 'a' :: 't' :: 'e' :: 'g' :: 'y' :: 'A' :: 'S' :: 'T' :: ':' :: ' ' :: u)
      [0] 1 = .error (.illegalCharacter ':' 1) := by
  have hscan : ∀ (fuel : Nat) (w : List Char) (ln : Nat), 2 ≤ fuel →
      scanTokens fuel
        ('S' :: 't' :: 'r' :: 'a' :: 't' :: 'e' :: 'g' :: 'y' :: 'A' :: 'S' :: 'T' :: ':' :: ' ' :: w)
        ln = .error (.illegalCharacter ':' ln) := by
    intro fuel w ln hfuel
    obtain ⟨j, rfl⟩ : ∃ j, fuel = j + 2 := ⟨fuel - 2, by omega⟩
    simp [scanTokens, spanP, isSpaceTab, isIdentStart, isIdentCh, isOpChar]
  simp only [lexLines]
  simp (disch := omega) [breakLine, countIndent, adjustStack, dedentPops, hscan]

/-- **C9 (counterexample).**  The minimal full strategy below parses
successfully, but lexing its pretty-printed text fails immediately: the
first line of `to_pretty_string` is `StrategyAST: x`, whose `':'` is an
illegal character for the DSL lexer.  Pretty-printing is a tree diagram
for humans, not DSL syntax, so the round-trip does not hold. -/
theorem pretty_print_roundtrip_fails_concrete :
    Parser.parse_strategy roundtripTokensExample 60 0 = .ok (roundtripAstExample, 29) ∧
    tokenize ((roundtripAstExample.toPrettyStringOpt 0).getD "") =
      .error (.illegalCharacter ':' 1) := by
  refine ⟨rfl, ?_⟩
  obtain ⟨u, hdata⟩ : ∃ u, ((roundtripAstExample.toPrettyStringOpt 0).getD "").data =
      'S' :: 't' :: 'r' :: 'a' :: 't' :: 'e' :: 'g' :: 'y' :: 'A' :: 'S' :: 'T' :: ':' :: ' ' :: u :=
    ⟨_, rfl⟩
  rw [tokenize, hdata]
  exact lexLines_strategyast_prefix _ u

/-- **C9 (amended).** For every successfully parsed `StrategyAst` whose
pretty-printing is defined (entry, exit and sizing all present — else
`to_pretty_string` itself raises), the pretty-printed text begins
`StrategyAST: `, and lexing it fails with a `LexError` at the illegal
character `':'` on line 1; re-parsing is therefore impossible, and the
pretty-print/re-parse round-trip never holds. -/
theorem pretty_print_not_relexable
    (tokens : List Token) (fuel pos pos' : Nat) (ast : StrategyAST)
    (_hparse : Parser.parse_strategy tokens fuel pos = .ok (ast, pos'))
    (s : String) (hs : ast.toPrettyStringOpt 0 = some s) :
    tokenize s = .error (.illegalCharacter ':' 1) := by
  rcases hentry : ast.entry with _ | e <;> rcases hexit : ast.exit with _ | x <;>
    rcases hsizing : ast.sizing with _ | sz <;>
    simp only [StrategyAST.toPrettyStringOpt, hentry, hexit, hsizing] at hs <;>
    try exact Option.noConfusion hs
  injection hs with hs
  obtain ⟨u, hdata⟩ : ∃ u, s.data =
      'S' :: 't' :: 'r' :: 'a' :: 't' :: 'e' :: 'g' :: 'y' :: 'A' :: 'S' :: 'T' :: ':' :: ' ' :: u :=
    ⟨_, by rw [← hs]; exact rfl⟩
  rw [tokenize, hdata]
  exact lexLines_strategyast_prefix _ u

/-- Witness for C9 (amended): the minimal full strategy, parsed from
its token stream, pretty-printed, and fed to the lexer through the
theorem. -/
theorem pretty_print_not_relexable_witness :
    Parser.parse_strategy roundtripTokensExample 60 0 = .ok (roundtripAstExample, 29) ∧
    roundtripAstExample.toPrettyStringOpt 0 =
      some ((roundtripAstExample.toPrettyStringOpt 0).getD "") ∧
    tokenize ((roundtripAstExample.toPrettyStringOpt 0).getD "") =
      .error (.illegalCharacter ':' 1) :=
  ⟨rfl, rfl,
    pretty_print_not_relexable roundtripTokensExample 60 0 29 roundtripAstExample rfl
      ((roundtripAstExample.toPrettyStringOpt 0).getD "") rfl⟩

/-- **C8.** After a successful `place_order`, the broker state is marked
stale; consequently the next state-observing public call runs the stale
handler's refresh branch: for any clock and any subclass `_refresh`, the
stale handler on the post-order state clears the state, calls `_refresh`,
stamps `updated_dt`, and re-checks good order (instrumentation bit
`true`), and `get_available_cash` observes only the refreshed state. -/
theorem place_order_marks_state_stale
    (refresh placeImpl : BrokerState → BrokerState)
    (openedToday : String → Bool) (strategy : PDTContext → PDTDecision)
    (now : TradingDateTime) (st : BrokerState)
    (symbol : String) (side : OrderSide) (dollar_amount : Money)
    (st' : BrokerState)
    (hok : BaseBroker.place_order refresh placeImpl openedToday strategy now st
        symbol side dollar_amount = .ok st') :
    st'.is_stale_flag = true ∧
    (∀ (refresh2 : BrokerState → BrokerState) (now2 : TradingDateTime)
        (u : TradingDateTime), st'.updated_dt = some u →
      BaseBroker._stale_handler refresh2 now2 st' =
        (let st2 := { refresh2 (BaseBroker._clear_current_state st') with
                        updated_dt := some now2 }
         match BaseBroker._is_state_in_good_order st2 with
         | .error e => .error e
         | .ok _ => .ok ({ st2 with is_stale_flag := false }, true)) ∧
      BaseBroker.get_available_cash refresh2 now2 st' =
        (let st2 := { refresh2 (BaseBroker._clear_current_state st') with
                        updated_dt := some now2 }
         match BaseBroker._is_state_in_good_order st2 with
         | .error e => .error e
         | .ok _ => .ok (st2.cash, { st2 with is_stale_flag := false }, true))) := by
  have hflag : st'.is_stale_flag = true := by
    unfold BaseBroker.place_order at hok
    cases hsh : BaseBroker._stale_handler refresh now st with
    | error e => rw [hsh] at hok; simp at hok
    | ok pr =>
      obtain ⟨st1, b⟩ := pr
      rw [hsh] at hok
      simp only at hok
      cases hval : BaseBroker._validate_pre_order strategy openedToday st1 symbol side
          dollar_amount with
      | error e => rw [hval] at hok; simp at hok
      | ok u =>
        rw [hval] at hok
        simp only [Except.ok.injEq] at hok
        rw [← hok]
  refine ⟨hflag, ?_⟩
  intro refresh2 now2 u hu
  have hhandler : BaseBroker._stale_handler refresh2 now2 st' =
      (let st2 := { refresh2 (BaseBroker._clear_current_state st') with
                      updated_dt := some now2 }
       match BaseBroker._is_state_in_good_order st2 with
       | .error e => .error e
       | .ok _ => .ok ({ st2 with is_stale_flag := false }, true)) := by
    unfold BaseBroker._stale_handler
    rw [hu]
    simp only [hflag]
    have : (if u.timestamp < now2.timestamp - 600 then true else true) = true := by
      by_cases h : u.timestamp < now2.timestamp - 600 <;> simp [h]
    rw [this]
    simp
  refine ⟨hhandler, ?_⟩
  unfold BaseBroker.get_available_cash
  rw [hhandler]
  simp only
  cases BaseBroker._is_state_in_good_order
      { refresh2 (BaseBroker._clear_current_state st') with updated_dt := some now2 } <;>
    rfl

/-- Witness for C8: a concrete broker in good order, a trivially allowing
PDT strategy and identity refresh — `place_order` succeeds, and the
theorem's conclusion holds for the resulting state. -/
theorem place_order_marks_state_stale_witness :
    BaseBroker.place_order id id (fun _ => false)
        (fun _ => { allowed := true }) ⟨0⟩
        { cash := some { amount := 1000 }, positions := some [],
          equity := some { amount := 1000 }, day_trade_count := some 0,
          updated_dt := some ⟨0⟩, is_stale_flag := false }
        "AAPL" .BUY { amount := 100 } =
      .ok { cash := some { amount := 1000 }, positions := some [],
            equity := some { amount := 1000 }, day_trade_count := some 0,
            updated_dt := some ⟨0⟩, is_stale_flag := true } ∧
    ({ cash := some { amount := 1000 }, positions := some [],
       equity := some { amount := 1000 }, day_trade_count := some 0,
       updated_dt := some ⟨0⟩, is_stale_flag := true } : BrokerState).is_stale_flag = true := by
  have h : BaseBroker.place_order id id (fun _ => false)
      (fun _ => { allowed := true }) ⟨0⟩
      { cash := some { amount := 1000 }, positions := some [],
        equity := some { amount := 1000 }, day_trade_count := some 0,
        updated_dt := some ⟨0⟩, is_stale_flag := false }
      "AAPL" .BUY { amount := 100 } =
    .ok { cash := some { amount := 1000 }, positions := some [],
          equity := some { amount := 1000 }, day_trade_count := some 0,
          updated_dt := some ⟨0⟩, is_stale_flag := true } := by rfl
  exact ⟨h, (place_order_marks_state_stale _ _ _ _ _ _ _ _ _ _ h).1⟩

end Trdr
